import Mathlib

/-!
# AirVision frame-annotation engine: a verification development

Shallow embedding of the stateful per-frame annotation logic of the
AirVision repository (src/handler/track.py, src/handler/heatmap.py and
their callers), together with proofs of the behavioural properties the
specification states about it.

Machine integers are modelled as `Nat` with explicit reduction `% 2^32`
where the underlying code works on 32-bit words; Python/numpy floats are
modelled as exact rationals `ℚ` (the claims proved here do not depend on
float rounding, and every concrete evaluation below was cross-checked
against the exact binary values of the corresponding doubles).
-/

namespace AirVision

/-! ## Python `random`: the Mersenne Twister MT19937

`id_to_color` in src/handler/track.py calls `random.seed(idx)` followed by
`random.random()`.  CPython's `_random` module implements MT19937 over
`uint32_t` words; we model a word as a `Nat` reduced `% 2^32` after every
arithmetic operation, which is exactly the `uint32_t` semantics. -/

/-- The 32-bit word modulus `2^32`. -/
def M32 : Nat := 4294967296

/-- Mersenne Twister state: the 624-word array `mt` (packed as a single
natural number in base `2^32`, word `i` occupying bits `32*i..32*i+31` —
exactly the memory image of the C `uint32_t mt[624]` array) and the index
`mti`. -/
structure MTState where
  mt : Nat
  mti : Nat

/-- Read word `i` of a packed word array. -/
def wget (a i : Nat) : Nat := (a >>> (32 * i)) % M32

/-- Write word `i` of a packed word array (new word value `x < 2^32`). -/
def wset (a i x : Nat) : Nat := a - (wget a i <<< (32 * i)) + (x <<< (32 * i))

/-- One step of `init_genrand`:
`mt[i] = (1812433253 * (mt[i-1] ^ (mt[i-1] >> 30)) + i) & 0xffffffff`. -/
def igStep (prev i : Nat) : Nat :=
  (1812433253 * (prev ^^^ (prev >>> 30)) + i) % M32

/-- Loop of `init_genrand` (state `(mt, i)`), filling word `i` from word
`i-1`. -/
def igLoop (s : Nat × Nat) : Nat × Nat :=
  (wset s.1 s.2 (igStep (wget s.1 (s.2 - 1)) s.2), s.2 + 1)

/-- `init_genrand(s)`: seed the 624-word array from a single word
(`mt[0] = s & 0xffffffff`, then 623 filling steps). -/
def initGenrand (s : Nat) : Nat :=
  (igLoop^[623] (s % M32, 1)).1

/-- First loop body of `init_by_array` (state `(mt, i, j)`):
`mt[i] = ((mt[i] ^ ((mt[i-1] ^ (mt[i-1] >> 30)) * 1664525)) + key[j] + j) & 0xffffffff;`
`i++; j++; if (i>=624) { mt[0]=mt[623]; i=1; } if (j>=keylen) j=0;`. -/
def iba1Step (key : List Nat) (s : Nat × Nat × Nat) : Nat × Nat × Nat :=
  let mt := s.1
  let i := s.2.1
  let j := s.2.2
  let x := ((wget mt i ^^^ ((wget mt (i - 1) ^^^ (wget mt (i - 1) >>> 30)) * 1664525))
    + key.getD j 0 + j) % M32
  let mt1 := wset mt i x
  let i1 := i + 1
  let j1 := j + 1
  let p := if 624 ≤ i1 then (wset mt1 0 (wget mt1 623), 1) else (mt1, i1)
  let j2 := if key.length ≤ j1 then 0 else j1
  (p.1, p.2, j2)

/-- Second loop body of `init_by_array` (state `(mt, i)`):
`mt[i] = ((mt[i] ^ ((mt[i-1] ^ (mt[i-1] >> 30)) * 1566083941)) - i) & 0xffffffff;`
`i++; if (i>=624) { mt[0]=mt[623]; i=1; }`
(the subtraction is 32-bit wrap-around; `i ≤ 623 < 2^32`). -/
def iba2Step (s : Nat × Nat) : Nat × Nat :=
  let mt := s.1
  let i := s.2
  let x := ((wget mt i ^^^ ((wget mt (i - 1) ^^^ (wget mt (i - 1) >>> 30)) * 1566083941))
    % M32 + M32 - i) % M32
  let mt1 := wset mt i x
  let i1 := i + 1
  if 624 ≤ i1 then (wset mt1 0 (wget mt1 623), 1) else (mt1, i1)

/-- `init_by_array(key)`: `init_genrand(19650218)`, the first mixing loop run
`max(624, keylen)` times, the second `623` times, then `mt[0] = 0x80000000`. -/
def initByArray (key : List Nat) : Nat :=
  let mt := initGenrand 19650218
  let p := (iba1Step key)^[max 624 key.length] (mt, 1, 0)
  let q := iba2Step^[623] (p.1, p.2.1)
  wset q.1 0 2147483648

/-- Split a nonnegative integer into little-endian 32-bit chunks. -/
def natChunks (n : Nat) : List Nat :=
  if h : n = 0 then []
  else n % M32 :: natChunks (n / M32)
decreasing_by exact Nat.div_lt_self (Nat.pos_of_ne_zero h) (by decide)

/-- The key CPython's `random.seed` derives from a nonnegative int: its
little-endian 32-bit chunks, with at least one word (`[0]` for 0). -/
def seedKey (n : Nat) : List Nat :=
  if n = 0 then [0] else natChunks n

/-- `random.seed(n)` for an int `n`: seed via `init_by_array` on the
chunked absolute value, leaving `mti = 624` so that the next draw twists. -/
def pySeed (n : Nat) : MTState :=
  ⟨initByArray (seedKey n), 624⟩

/-- One step of the MT19937 twist (genrand's regeneration loop), updating
`mt[kk]` in place (state `(mt, kk)`):
`y = (mt[kk]&0x80000000)|(mt[(kk+1)%624]&0x7fffffff);`
`mt[kk] = mt[(kk+397)%624] ^ (y>>1) ^ (y&1 ? 0x9908b0df : 0)`.
The `% 624` formulation coincides with the C code's three split loops. -/
def twStep (s : Nat × Nat) : Nat × Nat :=
  let mt := s.1
  let kk := s.2
  let y := (wget mt kk &&& 2147483648) ||| (wget mt ((kk + 1) % 624) &&& 2147483647)
  let v := (wget mt ((kk + 397) % 624) ^^^ (y >>> 1) ^^^
    (if y % 2 = 1 then 2567483615 else 0)) % M32
  (wset mt kk v, kk + 1)

/-- Full twist of the 624-word array. -/
def twist (mt : Nat) : Nat := (twStep^[624] (mt, 0)).1

/-- MT19937 tempering of one output word (each xor reduced `% 2^32`,
matching the `uint32_t` arithmetic). -/
def temper (y0 : Nat) : Nat :=
  let y1 := (y0 ^^^ (y0 >>> 11)) % M32
  let y2 := (y1 ^^^ ((y1 <<< 7) &&& 2636928640)) % M32
  let y3 := (y2 ^^^ ((y2 <<< 15) &&& 4022730752)) % M32
  (y3 ^^^ (y3 >>> 18)) % M32

/-- `genrand_uint32()`: twist when the index is exhausted, then temper the
next word. -/
def genrand (s : MTState) : Nat × MTState :=
  let p := if 624 ≤ s.mti then (twist s.mt, 0) else (s.mt, s.mti)
  (temper (wget p.1 p.2), ⟨p.1, p.2 + 1⟩)

/-- The integer numerator of `random.random()`'s result:
`a = genrand()>>5; b = genrand()>>6; a*67108864 + b`. -/
def randNumerator (s : MTState) : Nat × MTState :=
  let r1 := genrand s
  let r2 := genrand r1.2
  ((r1.1 >>> 5) * 67108864 + (r2.1 >>> 6), r2.2)

/-- `random.random()`: `a = genrand()>>5; b = genrand()>>6;`
`(a*67108864.0+b)*(1.0/9007199254740992.0)`.  Since `a*2^26+b < 2^53`,
the double arithmetic is exact and the result is exactly this rational. -/
def pyRandom (s : MTState) : ℚ × MTState :=
  let rn := randNumerator s
  ((rn.1 : ℚ) / 9007199254740992, rn.2)

/-- The integer numerator (over `2^53`) of the hue drawn for a track ID. -/
def hueNum (idx : Nat) : Nat := (randNumerator (pySeed idx)).1

/-- The hue `random.seed(idx); random.random()` produces (track.py:12-13). -/
def hueOf (idx : Nat) : ℚ := (pyRandom (pySeed idx)).1

/-! ## `colorsys.hsv_to_rgb` and `id_to_color` -/

/-- Python `int()` truncation toward zero on an exact rational. -/
def pyInt (q : ℚ) : Int := if q < 0 then ⌈q⌉ else ⌊q⌋

/-- Python `int()` truncation of a nonnegative quantity, as a `Nat`. -/
def pyIntN (q : ℚ) : Nat := (pyInt q).toNat

/-- `colorsys.hsv_to_rgb(h, s, v)` of the Python standard library,
over exact rationals. -/
def hsv_to_rgb (h s v : ℚ) : ℚ × ℚ × ℚ :=
  if s = 0 then (v, v, v)
  else
    let i0 : Int := pyInt (h * 6)
    let f : ℚ := h * 6 - (i0 : ℚ)
    let p := v * (1 - s)
    let q := v * (1 - s * f)
    let t := v * (1 - s * (1 - f))
    let i := i0 % 6
    if i = 0 then (v, t, p)
    else if i = 1 then (q, v, p)
    else if i = 2 then (p, v, t)
    else if i = 3 then (p, q, v)
    else if i = 4 then (t, p, v)
    else (v, p, q)

/-- `id_to_color(idx)` from src/handler/track.py:11-16, including its effect
on (and independence from) the global RNG state: it reseeds the global
state from `idx`, draws one hue, and converts through
`hsv_to_rgb(h, 0.9, 0.95)`, returning `(int(b*255), int(g*255), int(r*255))`
— note the first component is the BLUE channel. -/
def id_to_color_impl (idx : Nat) (_rng : MTState) : (Nat × Nat × Nat) × MTState :=
  let s := pySeed idx
  let hr := pyRandom s
  let rgb := hsv_to_rgb hr.1 (9/10) (19/20)
  ((pyIntN (rgb.2.2 * 255), pyIntN (rgb.2.1 * 255), pyIntN (rgb.1 * 255)), hr.2)

/-- `id_to_color(idx)` as a pure function of the ID. -/
def id_to_color (idx : Nat) : Nat × Nat × Nat :=
  (id_to_color_impl idx (pySeed 0)).1

/-- The return value claim C2 describes: the same hue/saturation/value
pipeline but with the triple in R, G, B order.  (Stated from the spec's
words, for comparison with `id_to_color`, which the source returns in
B, G, R order.) -/
def id_to_color_rgb_claim (idx : Nat) : Nat × Nat × Nat :=
  let rgb := hsv_to_rgb (hueOf idx) (9/10) (19/20)
  (pyIntN (rgb.1 * 255), pyIntN (rgb.2.1 * 255), pyIntN (rgb.2.2 * 255))

end AirVision

namespace AirVision

/-! ### Staged evaluation of `random.seed(1); random.random()`

The seeding of MT19937 is a 624-word computation with a serial data
dependency; evaluating it in one kernel reduction overflows the
interpreter stack, so it is cut into chunks of at most 156 loop
iterations, each checked by `decide` against an explicitly recorded
intermediate state, and the chunks are glued with
`Function.iterate_add_apply`. -/

/-- Intermediate packed MT19937 state of the staged evaluation below. -/
def mtA1 : Nat :=
  1051003669168937840174092018795272339192746317798327910538030579399801258022378402307657604890572486852775857285124622565306229469260776735250744768334774378547984676541891960820741005776210163729257153279155160132186270149162573312697940328421944621607374017230685808946788454587221502386517096679481521625654717224151489684498781891872284256455989341576850643730785160575641935468317859204927784833184460563134107059960174492448450562587325437563547347293169197246913208234717150572359022942312821904916315049564249381722386598772738994010882960532804759919139800904908667785066353531132654122595419045121630754965607215070436655500932850880645534707573411815073262667503714797479298966519664171545567635306615606499758343153011267313653582553386573772061728289521127916505963812377183815836117231443900400247849829968283615750879142680025313425444079964737823555488732151417095555757066964831598664773063185187695316816558997940447734993177639957905006838154872402479852901594896665154078442783660704608531603781688863439184583369331305923099148832453756141847986450217933785599785643208794424023419441719230898053564296870778557932299807173037537444468606144877805261926131645700948130732196045503826146951047095393596550063088302836902182853193143055848953413930146119017544672174855264608456242207942705382900567485238598948042509331760038902716023073753205908703365463034583596949876102097099189184410142501438563703078093302332676597961066351236508338803630283138561837583895218831336258536081776945387178

/-- Intermediate packed MT19937 state of the staged evaluation below. -/
def mtA2 : Nat :=
  43451447770933355967655871035138949693569261124825171477259371368242040963630315041640600927062429357342263245072047913504023898976222663001529237181465201772843534221011158941461788237762698589261273801769281502502593118350248735333713311198202497828243017791061617341960439265842889406544782867384102031255415178900271700980034168162099017956864365589687933957192069187376259297852575715811388574171215432492658087185762998133264937618221271755098965785706070432997411298302669325798217537933293030347163471750845422681163572671323163202114877642119962417042471289236322169711500740026105874938956762201603260389777781630279713951086029849345573805932629935728933211559110808097128740387659360937505283811305307347869883257125318992063172672017615398536223451585974537588286022205134009526045686872405388374260265035160946462461317145380067221477742827625033291004988186600847047377754436956112252765415547548408556447351514012263030872155378162443767249075800305742610089963329250678542759130875153917902877000807677462921581614667852151540757676825924685240218932446899250696312449506135479343622804623859202371994529890468382846930685411934794688331648287209458802119989744293689297836832290230577568486221523698209302874511121874762150532638410906132104470889309461291278796138128439899576644934370820510807927041579775331321262853219456273416624914629492046704521098886302371997733497169681590999013636545589526730424048338678309150088059101227216260252295312930593924952910598006343530852486415054899957422866806481309347647590361328438947697292746295807809428922793414666431031814032861628969263850718323415981880030858167528846350251046504303358726259363323070269072187751201049724611599535900338130652159317711611833200261613695454102202814578620205541009402153224278689166045349627866295907532129503895413832810001764573153936452102111555030652334240483122102594841884380674317392563630683854541905006240664521198153740937166191474997625752436218240484367957684741526689649510263592542862349097987484326349923217637403156985861455776990955562277159694815042715216724617281559276212445232985599228436390356449552586460255915535860776483174844518320695425225063695481080178103231631950275973599455300666837807626044694234147242514012101510230019527491077792176108322681805294472844587867838741311282738328647507874489747241806324255865685263010191263492795301111565976750841965370576184466410593308712339528181219905472475204122126760987352893962695606471420148579799216517439021817837338880498212480863841635080417758859006076745928135992556866011781792223422737565911596816399712199640792654318509917637608884290031624551158142734411201386157483991292013621678138939288482992546376894032653839238558962841745275990259484118213751656221934669102001560497906162914383442900645772006269349662366806111990602419656871248887642639965754962717384557626116538075248782173671677328111889848696227829607958952219328265125408926725048538271658360205449107884774215457740765053921576049468809462583970011502335658

/-- Intermediate packed MT19937 state of the staged evaluation below. -/
def mtA3 : Nat :=
  208035992059834220210739403860728342738800931043459486417504744921804576107301366385882394524307886925326709696410060582571046786712134496918680416680943980311066992226858813038158927200790845598215711110835894507175269770154890531204982837147618802169414808789689761340145628204325618684484621084722441958161688016912421324099288963862239707572182297748227280386198437174447562714349206330194231572762662762674053155475771665202461967933320018913447100034822422979762921114852233133745576130783196381780778154639938751526666234888584530838691192559067459885896673777031593894819048214030450001105630867808582019623280500818645748904258121605299616105273501469975390354896905351370065909776688882633566671587816910500850860633757388199674372573806022960141881055611948866582181676984992901211490256893552544053009758012815604042798812545932751839558253589243749120015197466527216261562425157060089434385830128221712921455503857981414724425113344425234417175596485899270224729087117754854529668640368446340138470234658099993888506482262882918737993134441175774420907183556006556526463607863094934465644577286327377037704901665089009686910392150759300282925219129503035871976228333770430160588331838335667898481327016830105004452391732752044350994760100926516599261747797281390254840875472538528767606952072030869182689372165871386955618806855235067576949371522032198239108243482701233143359722471448202830282418889507694547069068049773197101950269643427660226477930460568533378109402451791210314724223548313851322707445405534124002909836618286620068740688720762227438159581287608606979007047077319245053726311049863900624117476065832089243771857636626832662494462208127245772121616809155442789567803345765946573885776623664069176100079692189634384236874498656719501747099713977009082214178194971705202420499535057551529394526454211574038125338004498187581943207229472091046419387864450729573875311718378934041315910934674693377240215679983586441793675962165813957731444833946627423718897696178983896216097543480408996341236873686029800250376612942682082158541930206598690252769895348947245827935850549430483346058307848014055692746471339373928433310095514834074296951595754717943542698667398718909644596069252143036430309600858872971617811192664078310864514962828331614094999169920786326614212035776789143458809930508663990371339694271149807886149359711693811784257060711344307409870510493207320521197570493643070670858958055885207907195058910103345731933634800397703514352099817952273312921226080321446945314419529193267302596223066209665065443756642755255078392428758584543857761744476524374920968789096166138902962523083570649994679160976276586424438966943496969322277009454395600483862901564019202531392208093592700957074894522718485026768972550288661890842330424655167038151136012365036361483884514973446614021225448108623147155536215936181888046720453080012952087502092581354243002756331248243040618643785481021927273593332067938825043845604510396868901271281261990701233673381817195650457226690768655258116235663135494321079565151842548931440635388741939242526841972619747224493176243784629238255643119828729300652833451551107903937626346504260079736025996650121886304670342126140670814226971462008306821365184095047305248139834716961531905103022374809384807709539099990535679449363786203451346610419001592763364774384532905686160063821305162526801503935329890150221827120645857326418273027547465798232820534796485028692780345062515746159349045967689025544483589338489820734001859227622232745625708868862026593365493687220286709000573878933116152364531507635011829597319025322595421926559683282460316381945822613402947706812081580193965451605528010892672034869851760051379743483979344756547080682038408844290985335050352181949538449104613619606909510514664006024761547293430236429292852441708059399753500064257268629100166032086594139288096645995169302619349574327908753470249278155073089415324864136382563924908537983625256578397064874182882653799912165995469775796373822152617660669376848382903215502783482985764983475510232371871688353833066436151976891627380613272569881653227217696717075420346785687782629660043321847657674392464730753031162675313033245868503571273896513624174400867503818783040443045808586748316034617559153521274495271341416825989360978789221707637391395475082863475846321885345250031796204469497583492780024578728138648559916876191786179386168238276917298840244955770349716983631505438758557336510397735133651956910061719206852673297701165467794484156922122992283426321124181519735969450

/-- Intermediate packed MT19937 state of the staged evaluation below. -/
def mtStage1 : Nat :=
  62685089405509111925910797243914719854890513935494713084094713797279779630627496305943786046941309007281293105221577504421353501605599255248785149356818580886163074212016138319710181437623915839386196989339984175865611290932895638485827512283879634622589907034847096838980553398268338905605705315464924834076955485269257682765843392777664062904318116756644819538761883164862381873685805923051342196114892111881287659915424456096361326051748180740843339721465950121631833352165428366344241754810081140762710579390137795215443629123183303201044796731629341661542390258966032612552126580439913324626563213547393121217728067632048719897064596438939163041106934301355643192260261867872030533878188557727018817797219012064641958276099544136480610826250078810896212505254064619595899307426216931651016613164877613570296351724055264357110051005104450572173606849938075379012356137114572525910752676385589168436483206759652170097284388598518122222819376116616668668677988651997615236221431416155794821321118852088948452164682783715959922435191327367306488124638818446090532334864386359317233873012285172875896330714873881780586230596002778688422250420590175698633544778262136505069053046737202152515000629854634631225453245996997340762744567896897683212149150732909707719966588817675821630380251456266588599804209831660991462715440400663143017564651072677052296295930367391822676512661642282350234567553218318066651318510488484545671729568971887621684270732981974442582657502555066960418690332945218280990034155505553171409775830458482159957769211244505225186771766058316021949327301666418107251589707938065072144733816368743637495699897181007119363672460040974223449086641663004605507793014252452324150238463715514559124307431648478948480649031081489229583165223570218974125422263886587593014744330199975749832650568652404661542746543584685860761547297457070273167102314576665676644281998277713093924236551494770138725647883566971887853912300960949802636372591951717316415323846182747445131420005722224687602711525724505110953736568981699982016588947035894059736087136235396798804019434387781559696138411966704777989194870090051835909943079457649936020314680876367897457337488804889342331824364904005266943816631681518612047693872607083945336048154993001716858914072302230374294986610531277637599664647525761147514008899238689946802093944865612982597431648203028809043429562401771290925843222821220221381984318518256971016750121270624021542153515130386081256853244444367484914891752438843250797295149886721543902585582757118492217204960123203770309672216674331373413106027454841661967870247822106376003696537006476355273043676224973894002060133928765135363584693312631060562155459381152426642778209514491263275588735458188352331628933634618912177576995916817414488324819680108333628484452298807271017999262374749573133359090629722111402666396222385680310709557844049479865847370371052888681758484468279513921172987571336140289500145715018352119752770038578015899178947425013401300127437407370742417936980607757405410607208376626705322894782663757703548808362869195819947150150865798288136994832911439410269353230208345410503242199606186650417333579047848825834242257112060317620885151293421378661990197161958015730358249113963865616811805417654957899792836277351433146683316643158745577273742588847277405020330699298979666450169324546781433015633218213248018986767013905101885085728066131985273947793365444250280947765884488609302913437528001802423347517836456663978922564542901160075954132077499502061844004777463229898312792357201472450520034421742281215395838957029567457078867297742321364249618062920323524100796395855490398720473188748064226082130624085325443879193454095100721902723688608983702297802922465778395428510531587340343771240068168890882622394112252370643121994567113348850616779414952571984309063927162547038575769391208822294299053225776973195785292510157058775147687493667385905281728614066936870793483631104130486096422866739022254251631022238998824784309871214211336594149372534724828516536519652291847191320934127662041939033266344757810255450761243406685982638804631309022215852991706323223872506356963395668107287976200691035733250165615782065576159415303394415966535152327550107294310945533761757937224536792146711105700674959937207778503501562879445241463662142281185819506210181780721218897488871995890898495582077564387715740371190275817001449471008660140255770382875594805433223352833476546594040372715841292252983175468170554585838014797017976570586587751089146553833551413146641975370517778330202052282190648141351908509904289169596729111939424597802445523234111653813513351586367960175769546506050051493655326103823629699245586418016468660736051425039803522537493270385743437525903109563398688573456345292160567787373069854610200635728800730405759403691875432721043746233636765094325962472698626875833148826372580999341547042531665331710768365982359935219565301595187067772247975847412037958098451506998773182171027695752045356894447709388159633645629545493246019135820915900506906032640701290570506299065346661219735445730896769091171352761432210047450382980030625592142825700677633624952217795344145832513082782540989616413040988227257601039794195623143595351637462190706636535912449334420058581521218743569834717812580171279915160794789675762903718339466089866492140118823551337811927493524761760551434001520245324751568861558716803095718510972066599595072196209156923318071322517301806566620458899402166430591631348363311478802800521980525250372511467674969151489645720009661369785217086930227581405674315978920044798755483144811069077253851302610194739624245401270682864202663540116818822475326676741780611737275972111438408802370422377608919256570335384654037352344114105999356653180812503717835632673409647782213628400383443178293619326757139369589058612122088577237252104060778375287897543799460272211546791798613974575310224299012205778134871255296492395729078221387894808011355820153110205338707003138385845672884757408327786763143168159295742358655797897448897721796416755370

/-- Intermediate packed MT19937 state of the staged evaluation below. -/
def mtB1 : Nat :=
  62685089405509111925910797243914719854890513935494713084094713797279779630627496305943786046941309007281293105221577504421353501605599255248785149356818580886163074212016138319710181437623915839386196989339984175865611290932895638485827512283879634622589907034847096838980553398268338905605705315464924834076955485269257682765843392777664062904318116756644819538761883164862381873685805923051342196114892111881287659915424456096361326051748180740843339721465950121631833352165428366344241754810081140762710579390137795215443629123183303201044796731629341661542390258966032612552126580439913324626563213547393121217728067632048719897064596438939163041106934301355643192260261867872030533878188557727018817797219012064641958276099544136480610826250078810896212505254064619595899307426216931651016613164877613570296351724055264357110051005104450572173606849938075379012356137114572525910752676385589168436483206759652170097284388598518122222819376116616668668677988651997615236221431416155794821321118852088948452164682783715959922435191327367306488124638818446090532334864386359317233873012285172875896330714873881780586230596002778688422250420590175698633544778262136505069053046737202152515000629854634631225453245996997340762744567896897683212149150732909707719966588817675821630380251456266588599804209831660991462715440400663143017564651072677052296295930367391822676512661642282350234567553218318066651318510488484545671729568971887621684270732981974442582657502555066960418690332945218280990034155505553171409775830458482159957769211244505225186771766058316021949327301666418107251589707938065072144733816368743637495699897181007119363672460040974223449086641663004605507793014252452324150238463715514559124307431648478948480649031081489229583165223570218974125422263886587593014744330199975749832650568652404661542746543584685860761547297457070273167102314576665676644281998277713093924236551494770138725647883566971887853912300960949802636372591951717316415323846182747445131420005722224687602711525724505110953736568981699982016588947035894059736087136235396798804019434387781559696138411966704777989194870090051835909943079457649936020314680876367897457337488804889342331824364904005266943816631681518612047693872607083945336048154993001716858914072302230374294986610531277637599664647525761147514008899238689946802093944865612982597431648203028809043429562401771290925843222821220221381984318518256971016750121270624021542153515130386081256853244444367484914891752438843250797295149886721543902585582757118492217204960123203770309672216674331373413106027454841661967870247822106376003696537006476355273043676224973894002060133928765135363584693312631060562155459381152426642778209514491263275588735458188352331628933634618912177576995916817414488324819680108333628484452298807271017999262374749573133359090629722111402666396222385680310709557844049479865847370371052888681758484468279513921172987571336140289500145715018352119752770038578015899178947425013401300127437407370742417936980607757405410607208376626705322894782663757703548808362869195819947150150865798288136994832911439410269353230208345410503242199606186650417333579047848825834242257112060317620885151293421378661990197161958015730358249113963865616811805417654957899792836277351433146683316643158745577273742588847277405020330699298979666450169324546781433015633218213248018986767013905101885085728066131985273947793365444250280947765884488609302913437528001802423347517836456663978922564542901160075954132077499502061844004777463229898312792357201472450520034421742281215395838957029567457078867297742321364249618062920323524100796395855490398720473188748064226082130624085325443879193454095100721902723688608983702297802922465778395428510531587340343771240068168890882622394112252370643121994567113348850616779414952571984309063927162547038575769391208822294299053225776973195785292510157058775147687493667385905281728614066936870793483631104130486096422866739022254251631022238998824784309871214211336594149372534724828516536519652291847191320934127662041939033266344757810255450761243406685982638804631309022215852991706323223872506356963395668107287976200691035733250165615782065576159415303394415966535152327550107294310945533761757937224536792146711105700674959937207778503501562879445241463662142281185819506210181780721218897488871995890898495582077564387715740371190275817001449471008660140255770382875594805433223352833476546594040372715841292252983175468170554585838014797017976570586587751089146553833551413146629469563362925566247409434774772974214411715911129165321173634999199955982792663302560134104155978294882704424138860215294935489142966496064096329602858154880251223654235601024257101593718371451174910307101739517966906466073378919594428133532670277683327866706903195114153027972729627503416736349226644974503029084779165686096468218387297662492899422937574737702377279044410702758655363482208786603647335264918585854849150686711287331787179634765748145059354195510286507391235754551087178280366336461793014853039312800949747984826245442921359560342934102388228949104232160265746889000559837732619605653853682245025533531884943991691936951735123809333005707154227532254820948148657411289007621244255664000784258150298012575779859389262125706878109211088157462188942422807493066956515653318944008000939686279865777472776345713227097739419791244436311981378765781762704937760220159879958207602783869105662631672889345770018336410434048474250468932878765192652847260145881207087996895602859164925814284588373686115115004588171101976064747879107345132760562120808455324070252086868164079225086769128517093475562166480625746712034083016341144466555062365587387091724482706108882173813960846776459384692265766503787898358498355075041940823182654365611539501055040586255804182378239951147489128658270530874032554453995591779536091863772453825515801813067975159889879682259646131803215202974875418671750112765020383278274151122471063018992413472312930855107328334342862171798912143536741031886859786845145609111010530986

/-- Intermediate packed MT19937 state of the staged evaluation below. -/
def mtB2 : Nat :=
  62685089405509111925910797243914719854890513935494713084094713797279779630627496305943786046941309007281293105221577504421353501605599255248785149356818580886163074212016138319710181437623915839386196989339984175865611290932895638485827512283879634622589907034847096838980553398268338905605705315464924834076955485269257682765843392777664062904318116756644819538761883164862381873685805923051342196114892111881287659915424456096361326051748180740843339721465950121631833352165428366344241754810081140762710579390137795215443629123183303201044796731629341661542390258966032612552126580439913324626563213547393121217728067632048719897064596438939163041106934301355643192260261867872030533878188557727018817797219012064641958276099544136480610826250078810896212505254064619595899307426216931651016613164877613570296351724055264357110051005104450572173606849938075379012356137114572525910752676385589168436483206759652170097284388598518122222819376116616668668677988651997615236221431416155794821321118852088948452164682783715959922435191327367306488124638818446090532334864386359317233873012285172875896330714873881780586230596002778688422250420590175698633544778262136505069053046737202152515000629854634631225453245996997340762744567896897683212149150732909707719966588817675821630380251456266588599804209831660991462715440400663143017564651072677052296295930367391822676512661642282350234567553218318066651318510488484545671729568971887621684270732981974442582657502555066960418690332945218280990034155505553171409775830458482159957769211244505225186771766058316021949327301666418107251589707938065072144733816368743637495699897181007119363672460040974223449086641663004605507793014252452324150238463715514559124307431648478948480649031081489229583165223570218974125422263886587593014744330199975749832650568652404661542746543584685860761547297457070273167102314576665676644281998277713093924236551494770138725647883566971887853912300960949802636372591951717316415323846182747445131420005722224687602711525724505110953736568981699982016588947035894059736087136235396798804019434387781559696138411966704777989194870090051835909943079457649936020314680876367897457337488804889342331824364904005266943816631681518612047693872607083945336048154993001716858914072302230374294986610531277637599664647525761147514008899238689946802093944865612982597431648203028809043429562401771290925843222821220221381984318518256971016750121270624021542153515130386081256853244444367484914891752438843250797295149886721543902585582757118492217204960123203770309672216674331373413106027454841661967870247822106376003696537006476355273043676224973894002060133928765135363584693312631060562155459381152426642778209514491263275588735458188352331628933634618912177576995916817414488324819680108333628484452298807271017999262374749573133359090629722111402666396222385680310709557844049479865847370371052888681758484468279513921172987571336140289500145715018352119752770038578015899178947425013401300127437407370742417936981857870320528660139268453656892556263483856528990604659211151412566061859168261438723106207304370184776877834039553537402793531897793565197919078469564639593492677337659424920389363846119937529393380344821883813696798265708993159875852180051451162156492826898256813255013543266314344125464220915506860731902166517354550164151526064647654648577399595819000567129631700477559112640080908937981899319269503705130407351815546573208094130496696242054221388253410251353672279291955102366878455875038076428831332841074701380684581467367735892667834845345073175148358721757473943286692949996434066943189766347846687380093642813203219525024694323787998804801954756254883455447714420937187471594916960863061219601602502049053948370974828589675304700162697631935865508539152746599931418228424581379588443385032021631546663949374963444537385628477360874302803940731977898799922016658915366701330948986889258649163744490741554583524760060804618665148731158978271117056327283671380131969215316582953141916344567249455617811281696867123511640329226941457489068191528222491558436361207141174001905332596118252317689019379709928556556174195895121645422995103375821645812047404241757861273674630741140437358899896535766201878223789584399506489308096016131340444851285289578994929551943106833448832866079639519809392274658264553857484509807608886026140205108886761399174459507338357121585136417608327470063375094547271703841703158643948566984474031429464275389146332115406261016807828557263056710401309434216197087337687148131151553218799659139724462662867067484457259701052509557339604741891674323532278847537689223074039247344400375888117685273411033086070831643702254020356936168148998928527836897582562346818512946616821761216872088542996734269556733797943851365454604369246626406691363677305496496959295159200144578477316198264581989275471184953241805909433192618936251949922335436632166331484311084754000748737701265290667710119293682719426787713445289968103684960004286872058718970589169007196384432725827811159187243737355015115822630199081179468282530301174528487562867352141346592952515498813840646434321651212397787422686859237356924157819765008154590722995147329025450906691529038588694726879437757675615571502373040473332207973649814605250761224289883941856700027683570972838048696557851744641065592569629900977178522381872993480288043226129536346890139391654578072129360508911793518430296838681968931280911064818929224330600860363095627897762445487810555388287655740321280039100795572441502670723371144289107039400398778867748269673011908175124553336197756741284020268503345637591424025515516224431978251771524250891346482910984451594412884728742964924168251411393830837416582661811996332128744478447881747135300202750217380998203432396947139232098653659738676296972334113396262011563618415129360561604485313662826887583127035369133657973976954136453990288906303365868410439417117872514426299386521850118325762081969376509367242261669722538998221285739194752319239978082246115979018616221902193040238445131646620983350954

/-- Intermediate packed MT19937 state of the staged evaluation below. -/
def mtB3 : Nat :=
  62685089405509111925910797243914719854890513935494713084094713797279779630627496305943786046941309007281293105221577504421353501605599255248785149356818580886163074212016138319710181437623915839386196989339984175865611290932895638485827512283879634622589907034847096838980553398268338905605705315464924834076955485269257682765843392777664062904318116756644819538761883164862381873685805923051342196114892111881287659915424456096361326051748180740843339721465950121631833352165428366344241754810081140762710579390137795215443629123183303201044796731629341661542390258966032612552126580439913324626563213547393121217728067632048719897064596438939163041106934301355643192260261867872030533878188557727018817797219012064641958276099544136480610826250078810896212505254064619595899307426216931651016613164877613570296351724055264357110051005104450572173606849938075379012356137114572525910752676385589168436483206759652170097284388598518122222819376116616668668677988651997615236221431416155794821321118852088948452164682783715959922435191327367306488124638818446090532334864386359317233873012285172875896330714873881780586230596002778688422250420590175698633544778262136505069053046737202152515000629854634631225453245996997340762744567896897683212149150732909707719966588817675821630380251456266588599804209831660991462715440400663143017564651072677052296295930367391822676512661642282350234567553218318066651318510488484545671729568971887621684270732981974442582657502555066960418690332945218281217303316486524567769635580219274011155300834365512162131954889277215494826741612992312595554120211961820739827654119901306035140335694361737851694211704165537341002192220108035749527898011401086347341456409511622115473869237525243444323155726476566717347058740373139307444168659139324906547213243908842264627810887249982998300296381218161386996369462968543723274596428150975801112597288453501721712136874689162262838284546768827510440387369361810544878397470310829020260890215488635670250161454188489257109646328688645629716407951223633588191551695327306465346902636044156257774145407166389989558984363719586408889151142270474947350951765207056736440271536253893330109096861204793149660510599420994755238095578595121973753687536345305678584265102666476316463248248728424238834134649198874455576204829384772796279640809959802216690500268354196012396229332120461729714461707382443434082037281110188134790510689134261237821196045825285863534726447797436971085656802420398229432258947102039584290361069324560759269954753221572758439820793878356374755886243044644375122809023606025969055803316831823682386777188104608672072716752529506782552155500012196225607284797385418829339951841658867912967947779592749484598117371383262386662117002267568583823835593772629234065240782156151918680287250159621383537339379843463209201862143342322181684101760701733897619164642539682914019965382282005170637672781873459333080199781836987392501581304049032365990030664955664810231271104455308954644195596086540020759449772639909975286633246504250026057983334173458801732129849709656622507535055895352937932518529821399891749431638276322710475457587772612992171111490216274738139564967518878795585173660665244438721679789639418782847220489033686511852422295506957955113784898572426006335990508924253956559563848033933345234937897562522965104469513301572983960464824978158864065759018169075908070840447053308179823116865364271265849098386578147752549916729195012758821828471752263922067247167652216622452998021935378247895195249745371218483828157417104730401105636201081103893606969130146955775368196659667436540546124271343362970220314878883415441166261737087781104186761131883996288595437516953565963573254366658080763905770783031242710956994303759984302902386302732391134355781716058404012538716400541664369750368466088213045395688841091086383715535585510230884426634481938973116439226187913672274068286971418189963766054560749798093910151633736818479584108855780422838782579629311425904049148118146034735573841013103490697317153595100074146810056792798766192034082556738221915484133520170674993808009169746332312402962247624015424793206439063503615474509294403977306096954098315316389274181900517698871907771281215257399667472754784471442974752498864823869380788876883981366961722179558384386850850715343118461852992734302870386777591502882502543390331017834766724715498926299140587797632046019519633239636548011683533572731039082223970965792015732536514138863700608423039283253515677861651929119888634077680340861197525497679073608529559424447567050090398866658379777077283064136015159152738437514651027149222599809115782864405856307390045508312315504128844786317655581567213650355721294726772505277884904241494209632514620289671261026678827123425209237016521590457456455404468848040235236059006608432245625086385291244071906811603695044074159607209329273440007090506985417488156756145422447863329887616661121605425216922821920458728949303291198753428964482211429801084104976137965748057683149802471031389864885757327091544532910747450995595072691483774582023512001762627702794704547236229262191789763538848155779456421241756719137320170046811999952489874115493945209375067191421356289686304785676794051132747903402773945035022438238289043327564578590323704728689977024535075604455530055704055068680941817752446407316799571935427545738866045942876344107562855710219756847169324966480063236331228073603957756039358099184188500249253410066207958442095021184032514697085616696015044912330646137553219612138265111951533041526494996950520183828441053922891920904394256298345590399580423731933734732162725872869335560533003553729402934946732848620020068237080017299123947004341361473404860565292108949445958898178852298444580140127274196118202824094856368958910505968660243220614259805295499798122370286762882904463161013118539223334004694961198430774364887634439545625310356884884791674293307975207094818378006162268297757720979369654579679957475521747258372729991115860488317182204403034094598873765835848909037419858029073202025044104874

/-- Intermediate packed MT19937 state of the staged evaluation below. -/
def mtStage2 : Nat :=
  32832046300051849915563259962836395842825330598317382571241625219749920450003183128621849158688363754634520935785035919536575584810442581648483408731823623191494257972409572737383943342897649735058857238935532317449802214011350628369876888568236927969400708099488990310378654670920029518625124785611932697862881702184203908431468149425750890734704659038005158648836876661289544941635896296835337976059585606543801868104851487301993243690985149420333442652635251318819613764191133240430804584793976596041638361983170527898546407539944207624590328491437921476466544438173354485878676611936617707092869990205276889363965490175441677965932473683744310305490007514518299445592072941531014585516238868912026924012449608076266625859256954405680990175160645473373552366544846858162839677488202568507770873603466170047954985387597539183004492179907619453458447416245095658597669453076585947741385360207077574932887667974026053991951923517417006329750464396034339016611153909406275790451650964100983067100333703470833049280958583882192289226123853363989026207988261305327490064177673136608986655989191239534653287629327522498064584660474136971206473869835429406785355990184931131542601667310281365585012406106012921317485858786802497686921451489879610658245184385285376146040074013474541805370465686254986217321996020366080026480014934588578386162468051407282218451046546297953811436422125532806742119538295527320074176604488560683201064402864566125859680448675805966403551571274057643612588641482979060200234258808080346411783625509493315219650177778568282063157252743335314287889652237999269414033784421884705966412481700014303738533509511430912551523025424245797112963298119059936532049101467434144273176924428569410551126500330311822066891364089978512085706364800855971160170899252077032454489809969122219709462036061432935379298911536050957252065592513521779169207427248983768077439134025338174590149774349664338506408563474850762134019157469990720552844116676029457756024510253589609424207463406639808341129848085260485387460209405906928460154878871408548963278562416499960602477204280092229714162494111109553643387697271323215837027535141874087526621235745110756036238633465993725404162301982451617293508260320707159601644245965408002663197990412704689787031945599497285527683504592102435191746336859769402235977124552678067241997447074925693108786687787850844507180168205261487493175342275024932722294270417138429972182852034607587816691290286824194873490587153549798206308138850775147143182580267001913977826162505080898986135763924827568100082956142196061358911277360329989031911410843254581538883658538082346797535414448816011135481840898953519944809217258792263585462882987364716886098342525190021822660950750912734366647041083537939251746898099198348780187723672743310008040780721286473914052255699285269575512039527698888254513340233828165306029178782384440636350374321311971776675993406018320351494696151212331342414872047391063540344349282374419081261419185767123955644169277929716636460346522315719231149443488933033244617940352272404897170477329722787373202427008680318215390340772332452695119789072667170391087874653843912900082860103610298275774094993762177722959041408180920220067833812229689421013212291247592228481006607421157931659991076736950590463930492647093867704738159072391013909340990236208957314697004971132804422341828177052239676031838386066612561800095356390182147297350634593354015405610456026243771884783963328161351096141779765487327993401874714070191565180863506076287242362692614257867373597000096432765774117072062185708725804328422240185842676440722546442584580773377592431497503336544824612526841326251812789562048797415255533387370783456619046707799876871098885284432052194767832582594577573243818412537752617543583721306719324907075708489924829151244709359078300847390729467910799594053463883711056756737117577070680267496848053956752174973394628791494100787960516245296949585148940383914745235548125406119558018350718395214318543513997252978362649856782260963555984129061472807767673632985830941200769686357637888133371787676411563149085761561896649924477471563432555569621504969785373384347026986325077528720096557887641479955228951448513641533942233515196785670688358121288323994011288542835962799192607630501231751543398362130013150189035172926472997923557813730193037379747365201490569588779176983136530770324928929677598919385474956908828231396832910819973518758646778884624987244211767882343549809048473057246195659812966887280681882858585739341727571985617946608256895087389634659731383457840175540088951410937848851387307896202550881969275801029401614030206282985602611401634892409942502252732944728112900598131137546846084706505733614826882800271984657922096475864439834245325714964711488187586063419603924436969191991214141998797138380753524325543622591195399251439883269437412651916662909258905329500671313173180083360762503484529542498511971905547374874954675911930458119065344581198087985119034228496883111820710420580682112061891230177498073865475092742101929376072902927520746159922865733969165272609641457406665723513848215366665259462666426131348677886834864185124186683638153955217236571523620574448925441163436160115968514060666569753635901771101867752066672521548875629635076573420069559898596950323675918237328169711966971176556455361320279866696581631212271001130518672345209943376641859547781994495333354175301243367989146959329337126145430260645480008029047288103070855958486576932503753278034498561065002571481061996396329514450489819352177725695069630009031797852125339256866966036149163624455504836032344097485551843656056640707380710873619720642530588072156633524495520636498763616562149606868257781472590592447821814152601447887208146178088949147973017232621120388717472657688828687063706218477224841634293671437015594152608067521381167886285341617116491716297522865586125077373237715694518701743855055813760853332690841257389306900651625055303831610710078811529560655087633260316228783314129312764915916674356106990076205184464005237199997107022

/-- Intermediate packed MT19937 state of the staged evaluation below. -/
def mtC1 : Nat :=
  32832046300051849915563259962836395842825330598317382571241625219749920450003183128621849158688363754634520935785035919536575584810442581648483408731823623191494257972409572737383943342897649735058857238935532317449802214011350628369876888568236927969400708099488990310378654670920029518625124785611932697862881702184203908431468149425750890734704659038005158648836876661289544941635896296835337976059585606543801868104851487301993243690985149420333442652635251318819613764191133240430804584793976596041638361983170527898546407539944207624590328491437921476466544438173354485878676611936617707092869990205276889363965490175441677965932473683744310305490007514518299445592072941531014585516238868912026924012449608076266625859256954405680990175160645473373552366544846858162839677488202568507770873603466170047954985387597539183004492179907619453458447416245095658597669453076585947741385360207077574932887667974026053991951923517417006329750464396034339016611153909406275790451650964100983067100333703470833049280958583882192289226123853363989026207988261305327490064177673136608986655989191239534653287629327522498064584660474136971206473869835429406785355990184931131542601667310281365585012406106012921317485858786802497686921451489879610658245184385285376146040074013474541805370465686254986217321996020366080026480014934588578386162468051407282218451046546297953811436422125532806742119538295527320074176604488560683201064402864566125859680448675805966403551571274057643612588641482979060200234258808080346411783625509493315219650177778568282063157252743335314287889652237999269414033784421884705966412481700014303738533509511430912551523025424245797112963298119059936532049101467434144273176924428569410551126500330311822066891364089978512085706364800855971160170899252077032454489809969122219709462036061432935379298911536050957252065592513521779169207427248983768077439134025338174590149774349664338506408563474850762134019157469990720552844116676029457756024510253589609424207463406639808341129848085260485387460209405906928460154878871408548963278562416499960602477204280092229714162494111109553643387697271323215837027535141874087526621235745110756036238633465993725404162301982451617293508260320707159601644245965408002663197990412704689787031945599497285527683504592102435191746336859769402235977124552678067241997447074925693108786687787850844507180168205261487493175342275024932722294270417138429972182852034607587816691290286824194873490587153549798206308138850775147143182580267001913977826162505080898986135763924827568100082956142196061358911277360329989031911410843254581538883658538082346797535414448816011135481840898953519944809217258792263585462882987364716886098342525190021822660950750912734366647041083537939251746898099198348780187723672743310008040780721286473914052255699285269575512039527698888254513340233828165306029178782384440636350374321311971776675993406018320351494696151212331342414872047391063540344349282374419081261419185767123955644169277929716636460346522315719231149443488933033244617940352272404897170477329722787373202427008680318215390340772332452695119789072667170391087874653843912900082860103610298275774094993762177722959041408180920220067833812229689421013212291247592228481006607421157931659991076736950590463930492647093867704738159072391013909340990236208957314697004971132804422341828177052239676031838386066612561800095356390182147297350634593354015405610456026243771884783963328161351096141779765487327993401874714070191565180863506076287242362692614257867373597000096432765774117072062185708725804328422240185842676440722546442584580773377592431497503336544824612526841326251812789562048797415255533387370783456619046707799876871098885284432052194767832582594577573243818412537752617543583721306719324907075708489924829151244709359078300847390729467910799594053463883711056756737117577070680267496848053956752174973394628791494100787960516245296949585148940383914745235548125406119558018350718395214318543513997252978362649856782260963555984129061472807767673632985830941200769686357637888133371787676411563149085761561896649924477471563432555569621504969785373384347026986325077528720096557887641479955228951448513641533942233515196785670688358121288323994011288542835962799192607630501231751543398362130013150189035172926472997923557813730193037379747365201490569588779176983136530770324928929677598919385474956908828231396832910819973518758646778884624987244211767882343549809048473057246195659812966887280681882858585739341727651553411081549276383724536092714943888116300122212491766006045912410285676022407709920075005899070734773578097981199741703580400129062184569982833222232362830463442283196116988105795258895795296870354374689783450350912457320064293161077670550533472312750218367181019433228919934407307704688258782029547760770926831277475193301028455556669407138718613715367858479530659757106917906438045375628220611714688033011285216314436479321822583098470636723480430487364870142339749100137576569274613473007853772663145493152420644775460991634293301657390634621575677645755045732929322568947378442176144288054796046059799405259360751476371352346520058028701787424088669238396983933451580397436354143058310478222834086551719211815477356102671246553936656969474571059589276397718901217966054443693731924599375510786613971613331631544317051414290802816298850695948646604763319343436829853331175060503242997487193605344760168476084984583294389753598794044141193443964930411707388498213892667706512932088948198946106898473093529655873133578128595009531973073460543978465464446696923234861290713086085342388135785742903062145175189309457203609394284169115362993370352728926132934318763432900808611276488847622390087720946108030375341271495980669482428262606634154036370167487272852819816303851961908106105769845577584097981726160274388731497290158354148323438422821851083195430629538262783309097037310556437676190841652311848282242162791383090334165825907530201940904661656852762484351449856298408867039132517811882384648140050644895660878

/-- Intermediate packed MT19937 state of the staged evaluation below. -/
def mtC2 : Nat :=
  32832046300051849915563259962836395842825330598317382571241625219749920450003183128621849158688363754634520935785035919536575584810442581648483408731823623191494257972409572737383943342897649735058857238935532317449802214011350628369876888568236927969400708099488990310378654670920029518625124785611932697862881702184203908431468149425750890734704659038005158648836876661289544941635896296835337976059585606543801868104851487301993243690985149420333442652635251318819613764191133240430804584793976596041638361983170527898546407539944207624590328491437921476466544438173354485878676611936617707092869990205276889363965490175441677965932473683744310305490007514518299445592072941531014585516238868912026924012449608076266625859256954405680990175160645473373552366544846858162839677488202568507770873603466170047954985387597539183004492179907619453458447416245095658597669453076585947741385360207077574932887667974026053991951923517417006329750464396034339016611153909406275790451650964100983067100333703470833049280958583882192289226123853363989026207988261305327490064177673136608986655989191239534653287629327522498064584660474136971206473869835429406785355990184931131542601667310281365585012406106012921317485858786802497686921451489879610658245184385285376146040074013474541805370465686254986217321996020366080026480014934588578386162468051407282218451046546297953811436422125532806742119538295527320074176604488560683201064402864566125859680448675805966403551571274057643612588641482979060200234258808080346411783625509493315219650177778568282063157252743335314287889652237999269414033784421884705966412481700014303738533509511430912551523025424245797112963298119059936532049101467434144273176924428569410551126500330311822066891364089978512085706364800855971160170899252077032454489809969122219709462036061432935379298911536050957252065592513521779169207427248983768077439134025338174590149774349664338506408563474850762134019157469990720552844116676029457756024510253589609424207463406639808341129848085260485387460209405906928460154878871408548963278562416499960602477204280092229714162494111109553643387697271323215837027535141874087526621235745110756036238633465993725404162301982451617293508260320707159601644245965408002663197990412704689787031945599497285527683504592102435191746336859769402235977124552678067241997447074925693108786687787850844507180168205261487493175342275024932722294270417138429972182852034607587816691290286824194873490587153549798206308138850775147143182580267001913977826162505080898986135763924827568100082956142196061358911277360329989031911410843254581538883658538082346797535414448816011135481840898953519944809217258792263585462882987364716886098342525190021822660950750912734366647041083537939251746898099198348780187723672743310008040780721286473914052255699285269575512039527698888254513340233828165306029178782384440636350374321311971776675993406018320351494696151212331342414872047391063540344349282374419081261419185767123955644169277929713543028652431831661323751879413986560352843234566269890773100869233866190382103866393296068610772730163119271069507476416296818681218610492153214591768166994314927197943507578208225676496730137179087934858810584369330149935220072744653202486840982440869270087674089413735484014587926029307177644407964117021853427190516604484130454962721055075313710564525527081902308668023365499902509722367477780639770970928050719997054303814946782696642017672253642226114203125372973797057033673841100219069912485589014855026110171705789074677763679617964384839730004949432057901653452392461844479950720997243604847897798374136478402702559733574577532611545425607795784782492055862808364781204944897169226741319046757829735732659793607072908026930399089156407029270007715390674193733616753190902053792018521796571798371863790522988684553400999127408161938916544110471738573230060835202141208782160823689512515029686569420670688173499122107264904895134182696972510821568420700831429723558198206617754654579331019452176642229767695465736698885458480917260689349889221932406434905548783685133956535287388502351797998925184059846651139977237028665834565195388428946704519153716965008162901666467530576126952668386713994835239008591002016098903689796420389231979971094784337068764437845948724954200403932664820495717062861357013801904426522184633119913947603252714931164137993143415944612150630251752915438894904126607615737287474677448909155413944402617368564025499342330154196585081248681799914234107109088026613707314257152533247973787932387359000267910759191469528905210242599121753414829689553526726812964282788421912661738649047895623037008554422113918810220547043823967987911845545546249804792767059339531293244205032815797955889169731679373860759078345310789002745174228758216317634150121109187033993155291312407607827752211908835974650654034857403428742257313888880617299102115090353697734172843917694679295548290870790369459022428349241575158966910003418599339878907132742586231461255452688361433297822593498155486690952634910349644933500050209592567398572387049105070768398226452473204878289427827168165430915715230212038533352446765921188531493247794104372009384178751472140736060789786486453183359178635900530536596557439254765290692769615503774348873332350804022287627653942035107359943339909184308077620837200994522254142661290445322288887421594974081880372689712356789756357815134224688663440173601055618265706257231636856237629223912024199927417205920011279778333014890962408982581600326429222242942160274553190882907962681706568888359741922409094331232609811389984364703668922963469167466831936128108719106861463001342326286864158311741067167378194379513300842771414349828655489685914889012787004855946603617204873513699446181796360172384852506252297228199873149177832668365802926091382114156096552360165615018925336593175495678958374682315619195039008584118379650557971671763289984346214611955437005834755954852914685073031347267718531170164208519392604672134437506554770239354360674446020481018753897161777960942033836309326

/-- Intermediate packed MT19937 state of the staged evaluation below. -/
def mtC3 : Nat :=
  32832046300051849915563259962836395842825330598317382571241625219749920450003183128621849158688363754634520935785035919536575584810442581648483408731823623191494257972409572737383943342897649735058857238935532317449802214011350628369876888568236927969400708099488990310378654670920029518625124785611932697862881702184203908431468149425750890734704659038005158648836876661289544941635896296835337976059585606543801868104851487301993243690985149420333442652635251318819613764191133240430804584793976596041638361983170527898546407539944207624590328491437921476466544438173354485878676611936617707092869990205276889363965490175441677965932473683744310305490007514518299445592072941531014585516238868912026924012449608076266625859256954405680990175160645473373552366544846858162839677488202568507770873603466170047954985387597539183004492179907619453458447416245095658597669453076585947741385360207077574932887667974026053991951923517417006329750464396034339016611153909406275790451650964100983067100333703470833049280958583882192289226123853363989026207988261305327490064177673136608986655989191239534653287629327522498064584660474136971206473869835429406785355990184931131542601667310281365585012406106012921317485858786802497686921451489879610658245184385285376146040074013474541805370465686254986217321996020366080026480014934588578386162468051407282218451046546297953811436422125532806742119538295527320074176604488560683201064402864566125859680448675805966403551571274057643612588640259634247323026019435191405175706579895078493744450658771616182247818337340358509735154901950783974149661949649095249622746485828368506310371482964793290609662570751537474902023614052058131944757073027720017251947075614635835022553811996134039839210329765147063514514382721174288911594138949165333346512286933786756781184072081948738592796688700018738684928883253452702405971709682331170283514720444524119616767830073437594715506449064005339843768129940081021535446858483055631374487231879731059836618152464855902717735128039708959020864906573518343433439873512881421870891867063873359504633668289000263094153299788263598220164052670528646491285064019762258908151363096564693993660127447902034573195852052016410540300513309149589072595502548494547419833376485408764028968086611295731993566571320073231498621000319056097918674141414758234113150072947214277192821225904577406095497525252022805121444622579012263152990274869481078405433454654382313813225122018901780110486526194762576131809311136409984277842020198230748114744924229327486112529497535905052188055733828573881062986457677583575381558875496602617510164943843814900798817159529859411643046730787562388703124978528410619635596298311882547234630229988424334589354264138720704283616727793941224141012090571726376372359099569878775167610319167176724102220313766817173778195496887271075995741708600398211882255345442233005710520838941782574833667916021924861203881272171537661712519729034070414845525308338409300705002450944654374107710016656068562396128859762386327742117732973407578676438338394476970371871059675967066577271832070331146973653523566521708519083193996253017269655354062234291191531027408846308076852289030156378741716004286188521912662981190656219454879953346250387979827760916510539923492423227559963148716231401550195811421673043661059149256231433945305811109925933123039155626351619861303941379748163214911164675892489074050650769185730287033283333925099223640096776592979349377875758114465658935665811218373136797002844517703351751435737293955938637850889378677616009345842679150709617319156830433576116870247565242389097709045403320492161651180055560859387924761884277645459223730148232329260218959750286191975580402218053576201696818197851561175993981358879382672004935595159193892807127896909290730358612608915659932692201498011065863088345827678393718277367325216446236335654365248494998788313078657481042444589638990887272036199483138175381406691320659162411078900830514092925413191346950678902227972368873309643217394603368252508902170125946737893558477846726527676321552308460853839584869332168294137416700679109900945206624926817227054695031742187584037988251313799427007619318215551774142705119354410651128912859566458311466111813777967285839178389573863512360608232881454610011776853380244636487787140641586523759057482091979979514896937702705316785362198625396446087674491244536694800303871020816364470025009386189062310948617873297738240865324724151746645514240613282134695726554546316336870008244329546447968417280971408770033768927542798622661544497705674792597433915468449702382591542184467162942313965230217563205035888116992248521251352848329125325942915918181863318806895979464946548688101422191613669939560447316672604544330170641151999113091425308745622182778859504086725222392068098135200167001158414581181455537341565578287067534279373943980220281723516483478801808261474702810959525732441636811186536706677849183049846448176751686195909838354166273378151522779532609228078580126667095104336922353682366729551454765894728057573318960500265556035257407659141977553328984058212441713533047540119851271544752820450165081682087201694373076559397168977906805725396975325709230853672252121482397303005180007226486244532232260290586006970867781828521889335231242361769239608732436677350440077820328860388514758341771397051276966919594169846448526987309550470580863179473502973930056173030673011033090655382387958052680440568587740048871840437425765822740386765568087079463451161455730775806479476437272715044735801627841863668352246920629235947466633540446424999073542902579240713713820611877466091312029344761142324403022126778943603516166885561466655698845586699205112239438040128161542922461177606925301854327631681219089819188243150699392246589434288203781221728390801901050722045695774361942254234215329511031449137007368417325550607482221382122169798488764297364569256750099810110399848628937429415918332548651897552942902698999269612129336561480334240450640529229457447696625070601634515100081127002549164643202519383174961822542

/-- Intermediate packed MT19937 state of the staged evaluation below. -/
def mtStage3 : Nat :=
  38439521714665812731704417667037719827065844213609745498055455976222742803543359892064585024233798579060351962950548126095530483976646089835464918684089610980332617093570005681654098082608637604448230978494324112607521122440422296839233099023625253269207349243458969494607285030033411794319563371894625788081710405931212472454233905837108487506714214405765680798452754062559634063998733659396598511402646548355461669501631587024815624554055383669605935392298308195173648243470129665250173212816636018641661324486360456760209063865422260095882851298431621285019028216363409517202451720861814740140040998868543538586164331625121014938292882148332248382349971825969568309574533159457347221958375073189463308914839620431303654835836680202532251433198063117271151435646577575560735926272019471184237530775123818717874350239313844273877529764905244834197579501212999979004408648036309172363224094055715132240313407434816074080211922168043183785343460125808765779938882840170015708364716922806831228809924616074255981134345030961979769865911050818034428418081666693663594087345381366107435212577832976331024076663633892214872035292398817021440933674697870188867458342223838441323193215958830042310787230083855075010823850942159592708162879146923792285020698066830886725835993440743024404585264647336124200687647714779290638591553646447385349958663822439181963294487589469656947554808649812922719452492270613857795407372444190176942054784009794627051102430057116265645829886424494624289597606470459979019131386482375444103714376716471051031047815300303504584521302098623775855168316530716506868418556113447282319571397714168098769362315761424849093296941634125675716427332231699234875582243639853143080429768719741090676364545422835220708925301247774555261525782448982356534557404088206214990913164185125040879683096090169422961025445956269925900579090884398937161314698839574075552077774917784175677532120170316811210836783119026032588379420816450848598480539624021053544878965979320467980646724701107831832472387798390176844502516752520927693678714602453020808922867685743399412916914987031362267016539782589845957868322664718401008551396263368846793651723568142521715253423014571245461647742892849951660512031567278510842043145318352393237744735778471310315642764234539593993746860258951390884228029859106441087099398377108980628768197278716543171001949949244086607653490165448958149492610335074627528257654437476744754173100018430674026556664001566344410548512129166222036978802506494663605744386994854089005033413875547102903323367627432793801334753832146040236632568022232756564338045489417456787628545697758984158669172307819933142605654837740627946138267272392276117938519748932998919590965275235486461045814432698786236985783208168731541568273497258802528748257933554972120032078789946156312812451545977747232709096301105399786370257336053780510400691688042646976137611608585802041556148152665689771703320801550458768222684123571466491821665943027845352050925353563273191170032157184678078979116744594906222149066656818369950737492149354589847927630025791960758888518852974446914493665368713250738402903428523289324720135485198223995745810353344533794030718165753364273370730633161361850611213864409602209705050539765497154658051537801101706233849500874721925324009814806970894107498304453955301329302136373965440863476123805947552943928502851623535744307809239138604830928903484806329683125923361341476881185248803781558840385940383829227528131235367732337655820051615703445279672532586075685053930167165465863846198907685629622535025493742942544477021387545261117864131625944018383660088883611883097569944582674658064544454987789634852099840253598993690215544419904427815974676166792616884807905255346881087610524771275022559881248406529616262867253550075886222537750996181802760888311672380079900763923920990087707964425184662378720058717100380157945646315556163097137481743669428709875062518117377826879754750722287080771487919854613750247027255606596154766514535094387731995782167160624779235032138340191501441532104310860459275438460322470811792551938610932529723625625577195787449809979460033890602047887170047915709811659677683818003071445590836480427219568644188181427292178989484257194850746431716412359759818078365836377053121839534487182615138094605193504684241674294562341352582513938394648343509347195323888524606117503768954786196654953786179008949291809682221190410858440006995754879544631554083955661049361731439493184613284790732353454592570570442647379048939320182557654890763524844811577362956320624097884145837814120629713058331043357596007053929546212794250180695402247122611964084782813709862327604094139313111148320694284909188123776541840063784675129889244589418607979931927302936578892317215211118950333835294298805900086299893098001627017330036636840835442872360505642790976243232333125002754092058958089450382328271711318893106476281006139057002148968952419555095168004095717675903032650942841761662402816204981574728839272159027625682438178143615768265899504369844972931784367182800227968109659354970480979568874302905596458227250667616606188624667545137037281375253079835871428834724886034777053248398174014254608854382387406676731551592691735512568168639038453345016194516735864916990053327330974177487518379287778360450634083509344134593521412915931320847472312294623545281903476266674182393457873561166784256827991880279158371735570595244996833742215843279163907566111948492766285360011630053911244689791543328017999233757356803882880470709083012291952611818917927340513084649224893223973798196455607331966643887739737732485871623880441599863541445948567558919576232982029147471866329997028619091726750511421153597936885115669779784778732258544082155674873501510231143765990214190552640449119363913039574780428752776508265862009469510740798894801254409203247447596531299308694529246892720367501102351655217989595720628117348015514774257198004230406357243209719149436511823790939565649151638905465847272670931248360394142069931699736747857673847190495619389625873727976186540494

/-- Intermediate packed MT19937 state of the staged evaluation below. -/
def mtStage4 : Nat :=
  38439521714665812731704417667037719827065844213609745498055455976222742803543359892064585024233798579060351962950548126095530483976646089835464918684089610980332617093570005681654098082608637604448230978494324112607521122440422296839233099023625253269207349243458969494607285030033411794319563371894625788081710405931212472454233905837108487506714214405765680798452754062559634063998733659396598511402646548355461669501631587024815624554055383669605935392298308195173648243470129665250173212816636018641661324486360456760209063865422260095882851298431621285019028216363409517202451720861814740140040998868543538586164331625121014938292882148332248382349971825969568309574533159457347221958375073189463308914839620431303654835836680202532251433198063117271151435646577575560735926272019471184237530775123818717874350239313844273877529764905244834197579501212999979004408648036309172363224094055715132240313407434816074080211922168043183785343460125808765779938882840170015708364716922806831228809924616074255981134345030961979769865911050818034428418081666693663594087345381366107435212577832976331024076663633892214872035292398817021440933674697870188867458342223838441323193215958830042310787230083855075010823850942159592708162879146923792285020698066830886725835993440743024404585264647336124200687647714779290638591553646447385349958663822439181963294487589469656947554808649812922719452492270613857795407372444190176942054784009794627051102430057116265645829886424494624289597606470459979019131386482375444103714376716471051031047815300303504584521302098623775855168316530716506868418556113447282319571397714168098769362315761424849093296941634125675716427332231699234875582243639853143080429768719741090676364545422835220708925301247774555261525782448982356534557404088206214990913164185125040879683096090169422961025445956269925900579090884398937161314698839574075552077774917784175677532120170316811210836783119026032588379420816450848598480539624021053544878965979320467980646724701107831832472387798390176844502516752520927693678714602453020808922867685743399412916914987031362267016539782589845957868322664718401008551396263368846793651723568142521715253423014571245461647742892849951660512031567278510842043145318352393237744735778471310315642764234539593993746860258951390884228029859106441087099398377108980628768197278716543171001949949244086607653490165448958149492610335074627528257654437476744754173100018430674026556664001566344410548512129166222036978802506494663605744386994854089005033413875547102903323367627432793801334753832146040236632568022232756564338045489417456787628545697758984158669172307819933142605654837740627946138267272392276117938519748932998919590965275235486461045814432698786236985783208168731541568273497258802528748257933554972120032078789946156312812451545977747232709096301105399786370257336053780510400691688042646976137611608585802041556148152665689771703320801550458768222684123571466491821665943027845352050925353563273191170032157184678078979116744594906222149066656818369950737492149354589847927630025791960758888518852974446914493665368713250738402903428523289324720135485198223995745810353344533794030718165753364273370730633161361850611213864409602209705050539765497154658051537801101706233849500874721925324009814806970894107498304453955301329302136373965440863476123805947552943928502851623535744307809239138604830928903484806329683125923361341476881185248803781558840385940383829227528131235367732337655820051615703445279672532586075685053930167165465863846198907685629622535025493742942544477021387545261117864131625944018383660088883611883097569944582674658064544454987789634852099840253598993690215544419904427815974676166792616884807905255346881087610524771275022559881248406529616262867253550075886222537750996181802760888311672380079900763923920990087707964425184662378720058717100380157945646315556163097137481743669428709875062518117377826879754750722287080771487919854613750247027255606596154766514535094387731995782167160624779235032138340191501441532104310860459275438460322470811792551938610932529723625625577195787449809979460033890602047887170047915709811659677683818003071445590836480427219568644188181427292178989484257194850746431716412359759818078365836377053121839534487182615138094605193504684241674294562341352582513938394648343509347195323888524606117503768954786196654953786179008949291809682221190410858440006995754879544631554083955661049361731439493184613284790732353454592570570442647379048939320182557654890763524844811577362956320624097884145837814120629713058331043357596007053929546212794250180695402247122611964084782813709862327604094139313111148320694284909188123776541840063784675129889244589418607979931927302936578892317215211118950333835294298805900086299893098001627017330036636840835442872360505642790976243232333125002754092058958089450382328271711318893106476281006139057002148968952419555095168004095717675903032650942841761662402816204981574728839272159027625682438178143615768265899504369844972931784367182800227968109659354970480979568874302905596458227250667616606188624667545137037281375253079835871428834724886034777053248398174014254608854382387406676731551592691735512568168639038453345016194516735864916990053327330974177487518379287778360450634083509344134593521412915931320847472312294623545281903476266674182393457873561166784256827991880279158371735570595244996833742215843279163907566111948492766285360011630053911244689791543328017999233757356803882880470709083012291952611818917927340513084649224893223973798196455607331966643887739737732485871623880441599863541445948567558919576232982029147471866329997028619091726750511421153597936885115669779784778732258544082155674873501510231143765990214190552640449119363913039574780428752776508265862009469510740798894801254409203247447596531299308694529246892720367501102351655217989595720628117348015514774257198004230406357243209719149436511823790939565649151638905465847272670931248360394142069931699736747857673847190495619389625873727976552529920

/-- Intermediate packed MT19937 state of the staged evaluation below. -/
def mtD1 : Nat :=
  38439521714665812731704417667037719827065844213609745498055455976222742803543359892064585024233798579060351962950548126095530483976646089835464918684089610980332617093570005681654098082608637604448230978494324112607521122440422296839233099023625253269207349243458969494607285030033411794319563371894625788081710405931212472454233905837108487506714214405765680798452754062559634063998733659396598511402646548355461669501631587024815624554055383669605935392298308195173648243470129665250173212816636018641661324486360456760209063865422260095882851298431621285019028216363409517202451720861814740140040998868543538586164331625121014938292882148332248382349971825969568309574533159457347221958375073189463308914839620431303654835836680202532251433198063117271151435646577575560735926272019471184237530775123818717874350239313844273877529764905244834197579501212999979004408648036309172363224094055715132240313407434816074080211922168043183785343460125808765779938882840170015708364716922806831228809924616074255981134345030961979769865911050818034428418081666693663594087345381366107435212577832976331024076663633892214872035292398817021440933674697870188867458342223838441323193215958830042310787230083855075010823850942159592708162879146923792285020698066830886725835993440743024404585264647336124200687647714779290638591553646447385349958663822439181963294487589469656947554808649812922719452492270613857795407372444190176942054784009794627051102430057116265645829886424494624289597606470459979019131386482375444103714376716471051031047815300303504584521302098623775855168316530716506868418556113447282319571397714168098769362315761424849093296941634125675716427332231699234875582243639853143080429768719741090676364545422835220708925301247774555261525782448982356534557404088206214990913164185125040879683096090169422961025445956269925900579090884398937161314698839574075552077774917784175677532120170316811210836783119026032588379420816450848598480539624021053544878965979320467980646724701107831832472387798390176844502516752520927693678714602453020808922867685743399412916914987031362267016539782589845957868322664718401008551396263368846793651723568142521715253423014571245461647742892849951660512031567278510842043145318352393237744735778471310315642764234539593993746860258951390884228029859106441087099398377108980628768197278716543171001949949244086607653490165448958149492610335074627528257654437476744754173100018430674026556664001566344410548512129166222036978802506494663605744386994854089005033413875547102903323367627432793801334753832146040236632568022232756564338045489417456787628545697758984158669172307819933142605654837740627946138267272392276117938519748932998919590965275235486461045814432698786236985783208168731541568273497258802528748257933554972120032078789946156312812451545977747232709096301105399786370257336053780510400691688042646976137611608585802041556148152665689771703320801550458768222684123571466491821665943027845352050925353563273191170032157184678078979116744594906222149066656818369950737492149354589847927630025791960758888518852974446914493665368713250738402903428523289324720135485198223995745810353344533794030718165753364273370730633161361850611213864409602209705050539765497154658051537801101706233849500874721925324009814806970894107498304453955301329302136373965440863476123805947552943928502851623535744307809239138604830928903484806329683125923361341476881185248803781558840385940383829227528131235367732337655820051615703445279672532586075685053930167165465863846198907685629622535025493742942544477021387545261117864131625944018383660088883611883097569944582674658064544454987789634852099840253598993690215544419904427815974676166792616884807905255346881087610524771275022559881248406529616262867253550075886222537750996181802760888311672380079900763923920990087707964425184662378720058717100380157945646315556163097137481743669428709875062518117377826879754750722287080771487919854613750247027255606596154766514535094387731995782167160624779235032138340191501441532104310860459275438460322470811792551938610932529723625625577195787449809979460033890602047887170047915709811659677683818003071445590836480427219568644188181427292178989484257194850746431716412359759818078365836377053121839534487182615138094605193504684241674294562341352582513938394648343509347195323888524606117503768954786196654953786179008949291809682221190410858440006995754879544631554083955661049361731439493184613284790732353454592570570442647379048939320182557654890763524844811577493665147538243904597739103320394681538509753930305266957105119492310979347848428533928570118373065444960042076136811021703613331351190912984447224852753790536150908344918877361616524685209899539837484893967929804840354826760880790565449909161206225074234594651129402900210635816848887200071702628978709851691386648264391898734670257914912251795710400244881276352543085606626969132757079473926643088343824783220845787676005884635547708371726753288686441293027570654713491193808720817677940760275992000896270038347619985073008401562704892261860323792562768016553744715865795486076061532632159759552874380838483707702718155782341284072420597320243802760447127265749948337670304690362031307259773743407588977122021868839924071179068558415938588026492742644288364010360695383024946620072333871732115050280389726257390656770736469474035566490678215604331702166669456339553444836390979690537934697447744010740997803296878011401368132281172915572410403014488027357687355818880748796082964733499766591276508854132242377042136067555449838868170597232157297131529393697821981881766214019682344495729473534562294263965620027018263457576517843038405139744426351495668233922740135612431042147189083288610232156049179841341425350770030606436207711504608703361731000783464876455678929573672515388819437070465920512758453469287446932701636228206043694950233423234353617921288848405486285988525688164410875880701581133129654176378324261377756220299562424639982620575419591882132515326389531835076300339691008061304492646

/-- Intermediate packed MT19937 state of the staged evaluation below. -/
def mtD2 : Nat :=
  38439521714665812731704417667037719827065844213609745498055455976222742803543359892064585024233798579060351962950548126095530483976646089835464918684089610980332617093570005681654098082608637604448230978494324112607521122440422296839233099023625253269207349243458969494607285030033411794319563371894625788081710405931212472454233905837108487506714214405765680798452754062559634063998733659396598511402646548355461669501631587024815624554055383669605935392298308195173648243470129665250173212816636018641661324486360456760209063865422260095882851298431621285019028216363409517202451720861814740140040998868543538586164331625121014938292882148332248382349971825969568309574533159457347221958375073189463308914839620431303654835836680202532251433198063117271151435646577575560735926272019471184237530775123818717874350239313844273877529764905244834197579501212999979004408648036309172363224094055715132240313407434816074080211922168043183785343460125808765779938882840170015708364716922806831228809924616074255981134345030961979769865911050818034428418081666693663594087345381366107435212577832976331024076663633892214872035292398817021440933674697870188867458342223838441323193215958830042310787230083855075010823850942159592708162879146923792285020698066830886725835993440743024404585264647336124200687647714779290638591553646447385349958663822439181963294487589469656947554808649812922719452492270613857795407372444190176942054784009794627051102430057116265645829886424494624289597606470459979019131386482375444103714376716471051031047815300303504584521302098623775855168316530716506868418556113447282319571397714168098769362315761424849093296941634125675716427332231699234875582243639853143080429768719741090676364545422835220708925301247774555261525782448982356534557404088206214990913164185125040879683096090169422961025445956269925900579090884398937161314698839574075552077774917784175677532120170316811210836783119026032588379420816450848598480539624021053544878965979320467980646724701107831832472387798390176844502516752520927693678714602453020808922867685743399412916914987031362267016539782589845957868322664718401008551396263368846793651723568142521715253423014571245461647742892849951660512031567278510842043145318352393237744735778471310315642764234539593993746860258951390884228029859106441087099398377108980628768197278716543171001949949244086607653490165448958149492610335074627528257654437476744754173100018430674026556664001566344410548512129166222036978802506494663605744386994854089005033413875547102903323367627432793801334753832146040236632568022232756564338045489417456787628545697758984158669172307819933142605654837740627946138267272392276117938519748932998919590965275235486461045814432698786236985783208168731541568273497258802528748257933554972120032078789946156312812451545977747232709096301105399786370257336053780510400691688042646976137611608585802041556148152665689771703320801550458768222684123571466491821665943027845352050925353563273191170032157184678078979116744594906148239962373937440451110156845570872736901249112117405491522970503325870783515790777546809878680548942493209693277389605500859426207964277998927393903691720659057506144770422067195030542814131621568511000624797735335728312114750395847604272202448458872142282620169119426213861249141497668463696871433119588815743257103974219185303973203554915826837899647018270054899767385269450156348050802098304821623918644405975639537187075078698352534920083548773588743379569041630342750080684743308719033853236683917798771572415645011313916602764615920337064500233588115352847152867374661021709686391993788122649555002641094901072940158830532912935149796070557487517323833271521897263888066340507336130388386356583752942234626548698427697209050875634276625326467094068713487285977506030581435043545321329145488102697930940364431105955832431042856661411849291535058573506155772808119148867904376803417495472954294867751237573340504175814433689080849719336402038073761701434035413690948763065456829864311294032700993216987643965319825589138896720749181955573565544883753048906548966417377132018652385474479460553744523285928726981993596414083578241165554317938992541198968030365854373612615628036764742904380439135435911586719441252388109610511405122120432145136079742628373330251572729419299064683870569162048384770249909087573713421895470182547794174724805496541164463496881308834009207615325310887182102332720759536761114627766746814650778535920757210071123589050306899138653556730123077318312150772517916247185606105412317147121957057943994425783677691352128576897375643797300756886378824409957856490859187941882420863902452355474151532220891136269923905917110982461883100986702828263634942054208010524097913054785430566227366766136782432005232706458798474581819454381056552806894440513219674584488422735897029018129285058039063347898746863834834716538547866430696992933678609874562660964333111184762217606330665183801865550750101198892928330355948008260819897443098916381874673648807070987990297283137790334747058567616997920900303298679380418329469747108526939520099121257075018547540650232016107207110255274120758304811832437179596921746929920518887973932938978149790282151299694621520751100658222101994491957729336942122986434873705252587561633411404093404399435764603592804582521711299601418364969808322480690552534289761046425585573479478249676183624034257364679739768135242442635034389190790211774209967606366487531211451972141969813752806384439620471307440775873368040014631649115756180232346503367225849613559068760442073111488860254542476673985638970064399329281506816812413582973794927742375046948098557011300852027760188954619506907071768895611910158898174451288999376023035038576105348294285695063317667498705151826123343256039770331216527605329939543187897412154287833818389019470493495913294141970309025611902893136426901269748889299443027827086004435397461386953883866197888662982650560265367089041639800769389413598716766220443228673439864010143955867288319601851314659928744879800348116300637688422

/-- Intermediate packed MT19937 state of the staged evaluation below. -/
def mtD3 : Nat :=
  38439521714665812731704417667037719827065844213609745498055455976222742803543359892064585024233798579060351962950548126095530483976646089835464918684089610980332617093570005681654098082608637604448230978494324112607521122440422296839233099023625253269207349243458969494607285030033411794319563371894625788081710405931212472454233905837108487506714214405765680798452754062559634063998733659396598511402646548355461669501631587024815624554055383669605935392298308195173648243470129665250173212816636018641661324486360456760209063865422260095882851298431621285019028216363409517202451720861814740140040998868543538586164331625121014938292882148332248382349971825969568309574533159457347221958375073189463308914839620431303654835836680202532251433198063117271151435646577575560735926272019471184237530775123818717874350239313844273877529764905244834197579501212999979004408648036309172363224094055715132240313407434816074080211922168043183785343460125808765779938882840170015708364716922806831228809924616074255981134345030961979769865911050818034428418081666693663594087345381366107435212577832976331024076663633892214872035292398817021440933674697870188867458342223838441323193215958830042310787230083855075010823850942159592708162879146923792285020698066830886725835993440743024404585264647336124200687647714779290638591553646447385349958663822439181963294487589469656947554808649812922719452492270613857795407372444190176942054784009794627051102430057116265645829886424494624289597606470459979019131386458501797978386285259308319775701149477117602114751756546658139612091176997020831860981172096425301469218767231018272637642362556319320100628583944442137021089782521879998011178499815704982899376040649346414984777161783187136908835076737778237983694479622251934176672620581356052620778272469837895762997560176794285979235653266840298209843217706866798805588884164915211996399617624889156843093858605106885443522085403212033465616259112095844670426809484937008947792371587232330990186392793224100157141201121161499951084386344729912697405267360901348064256059725672358771470782357542766297225068544536642875572926844602843004028976265555016362299789367675433578927205059485377929369002218781082709090119407306494748407710997277729218758739125287961903583749512459522776175449635399189070111260625588849317184969879434395769197850596269245335432794000498696641607998569450332677265708752353403260541804061275583591140111833842658989031815588634731466221536594222618193391592337420584248906861722587338337590933083669895288613045832067401733171794346309116872830476355430256368347188624529847897223910124413285326483418832662896135208277084552568021847660501802367730262411528992068388581894669618367450051534135440399103354660509817286680531718075656677655942800414692379829904294624476931011980199135633002716965409693756253962786572107761625439483562265119312872061109805126998363391698166852422247445189928902820929552096939903540171465368151978156736409197765148006593880253937794366289143230043015280162956207900726465663265408612670545394919213092879201137609626292069410577435067315815951944994433449128220007103756248916561633536155241125849840647577770508030089492832096823577355697145006632328927792224691881911699144626391261118416834435674103640072276134304852069889408083721727550399125712642807236766855577138084145963297596612158862327689960802763029611129723377284537746446560397292058130839832510522361778015442783878098372227138018459394896682244623607732227925450964493059152229211401608791302088469693871436564394348814242554277571079734436258080167688665914611265887992170250217378452939008434712834514423380684035214754122434973083522842869195162353970497134901407339665717551957136271935580908156827027851406759240571095257316697684511555685904679927313205625857556139211303729943257249251003570635075055055823246571357965955968473283842056562246633644774808889735532238890975300974085953997385910702573159155960010046916413568229320312315296322779833370732155520207321620265558200039195878256774885897877075447455637733209255184313509429108490810569889454761901976374921879840160779718053461152063118067750660529639936277550272366417371319157068569021834666155128823853068871978273047049285281718530953533539518621037828030244981608220512565678935551905453396785212022103199081254906180394250447744718400711109346533192453232594758584661181096921154620203703011922349654326502470097620122273047779050806943839813919469505510181901486179180176671245402756497714027149647360845476989022946270114902161262398270277324116954858866584581809104372392780072186821491860901458814526881221650754761742524715468945423625710323987610683103676717497835256201245119954582526732041610653762849420363541061272005992984637270223058780486018618229814897694585642101279623090385518353040575252395492430439804776781258153032742946000876352918147247782028210479468265916211331673788657997260408953673579882941198154656024826367687133350565005377972283768382492390141471295704706850987464280329829558677252751764401697127129596870701739064662031995935759849590131610662172545933254560719983167154739506819408720485078002317388270428611160618167282565509878539300127841501548537064420314303333023658892349575915771899688956784738237149906468323009397737408612517633139678692825322799639767501321624900820702652922775558768628496090139619596675447779233654882888937633552081172094197900778545041027293737803385410727762137893042933291578819269039563684983809294966995113690927311361555037346557134644532095503991968350737686174551709931501090206592820292190240833071486170668227955972167799602243527238646590078549531585470912335864298297357538913656209282514148326340642968039099387324400501320474518856342825274215926525285676383549431936405287896722119367132843258977254426900575506429029342352356286587412171977784012451349165688747025706580318496838449972400449789707588484411167159398191596279777790358137620851067933534660218486590357853325843246503859113238925997747547115875478226694737521329440313958

/-- Intermediate packed MT19937 state of the staged evaluation below. -/
def mtStage5 : Nat :=
  78894016774730474561964992525138410867992859295992868144721941338238847176702112815345426803279861024333910366499383946739020742033248059166737670221585954226479039718323228606771862254537776467586255639877599331924691454677546978566246736330545138842738059437301939493253997362730389723001179593212364297084468767837512700197915070581747347521768686178034622162954761384715209176405556878847583907885301735245551966660273541777279444216316920631083381243282727921703498414325322425139396004674845760060803164568136484326130701324053896520503361529110839119494420003948615064189156694624114337834130986446011083804259977600835681673371873387562306107812632498938838383751497894770787084177277726169713443598832546071315902264355581262401066666198476023914848648062753093614987916609662692724457615983593697508895698936952156654227415853770998011410263155793431171976587332076520438606949507397797375691702535740218113941083510092458111706297699790890963066611346985673590238856971495883485442594737553941543125534482063092946522801302608447290825543716331128465345583120653900293805846257964447230620645797002408790688635819798896860746576033344687185405909042713779643595256052753414139970154412333956562172159515468327263740164605515242719534528865196279773342136700907972444880391763441105332944935880202970599665966789742914987346378760061978759817925309442033583408829539963748917496715114488437554609927301603246173604433321086867868926587713528038696193606913703454470222812371858129428294368911848677218083609836697225432919187373666864367617176499850777379207073666120276273189484610786000369362201105091137409179652130528631328640021918201124094345053889787057605781750516748666123243032832114415553328330250382646328426064909202610902891278793701605861089942719904028778425054500893263697795638046056580765100037574097678431093568090963291853961892077935359110511690719216756291729606847964649253350865033662069482860187266568265346643692326070172131401629783798669383463797050357622444560089306062612859331476108313160134048035825936020699683667345490003359097823730412535422597034942659910908709236496607848393641526440562027458113965767679382518554376801036769458275692832851171232325023721920294045029840921670996890326189294297350634365035260066506925019118445166603553530647118329253325869334465166749202625993601779045160060502108646712221280077078093472536254324514938607381400222677725649884203691485791561223906897479254878273521414455957062018536097973807945213618851917770904581117321360860776237001355076107832584134362029697438691646136171122488977492791528562756886951069525685153281286455197088935917592029642829962794730809142692366689447781863995753177903624733358252345006009721715510874746304282459189149892196720808831795626403571808851529626808617695727878445954379529726853962429306923321167682700731910918058883033434771633590982453402247549454637352864408434370997800991784324334483145908642120356424274023190006825879304248612891431792355107441645928315600275657696615000746023401884418411100876078248673220898647328613232842867267713361571602550366420061075642662957347667181293978833866541790910688799823619888213218031181288846757901379758013608204479569456253199714480964798661760373670530006923358185878058936537144842102576730115170986279450577828226787407172419308453323736130413442576136129106737809772118903620959446505308745063378862335533231431397743200301171218764164308566652940995463385572420506820854139662722079717238861509450826527447689878967438329776501989266589416919476058128737477831567962816689134352061710718354825235586615205769244350815988950524880469257343155214054755392087540435582552300457768836659454933624125916973069211584067456738207058223130943389365833147688758858533126734400941831417957517059400416235059282333671359319883654972161975509656269361829025042873957643282303085075735494341991909233892884059322967655368533525174695110130747264917540209489981117170724958812429449840852232208524735272617996103020964798176934322796746138309967269896286911840827301881016933022722194771435046621387575492893548621925379033324022256440205814212901751904304885853995693487947859420342268868461618521223682130404309949123505839006620562967540528721857605812236893064715283774346599754192248201659481828060939780933461847702397849942990174385777934159920572925872136420312362373147861663531471384738527941260627164102591137013354818119876409675941649839305361560653415456605199131492472809681488577232483556907135581220336806467670101054065007808138723544683562044473124423283136253735458464695852688229521720328520084479854136769962735630333271312871406527868766193300560346999463786543482684898742592902889472292179583919936710804211540905438594371432707709459608758344657379928392534515560809177489630295107125327999391079607768881297333629212456604288441529513091562265530586057800782640459868509150739052129460599280721186560834776823621825248517889971696318299059175775901931678172701377309217124816275893956086729830626776184307698811886127243427144792469545615721763300755069440798203395665559906677169899781220847658563123506378784362991134347048818783819839851332874910864352223727378950196769695467479991508521241954910432617241021248047111348150882255235493309346528240623659473894229027324646910539565644556282188283370736240500453165367594389561714276581004739217691424516275527146774118695225085987471806522269248277615408463780030625344054045283501498276417136215779683312768660709695157885108866772663543226738239558404472548058606676425085866334770209417038133432283712867335560683506895649222639979239914943721173661907410620211199645116945164593051739774976225649514781738260851536963742528554205831430682149129024092581865938305317763901539418043052858834414079316919653862590291851154832542121657430879943610460793355248103959719431471020233610488946805674546297196097788460514837580455293450702384723930934676308923990848248224189470462235396790379739936678174534020329135902313046761264829541565002355920147862756130312806

end AirVision

namespace AirVision

/-! ## Tracker data model (src/handler/track.py)

Detector boxes are `xywh` rows; each row's first two entries are the box
center.  Python floats are modelled as exact rationals. -/

/-- One `xywh` detector box: center x, center y, width, height. -/
structure Box where
  x : ℚ
  y : ℚ
  w : ℚ
  h : ℚ
deriving DecidableEq

/-- The result object `model.track` returns, as the annotators consume it:
the boxes and, when tracking succeeded, the parallel list of integer track
IDs.  `ids = none` models the failure case in which `results[0].boxes.id`
is `None` (or otherwise malformed), where `.int()` raises. -/
structure TrackResults where
  boxes : List Box
  ids : Option (List Int)
deriving DecidableEq

/-- A rendered image, as a free algebra over the drawing operations the
handlers perform: an input frame (with its height, width and an identifying
tag), the tracker's box/label overlays (`results[0].plot()` resp.
`self.custom_box(...)`), and the heatmap's color-mapped alpha blend. -/
inductive Image where
  | frame (h w : Nat) (tag : Nat)
  | plot (res : TrackResults) (base : Image)
  | customBox (res : TrackResults) (base : Image)
  | blend (alpha : ℚ) (blur : Bool) (base : Image)
deriving DecidableEq

/-- `frame.shape[:2]`: the height and width of an image. -/
def Image.dims : Image → Nat × Nat
  | .frame h w _ => (h, w)
  | .plot _ b => b.dims
  | .customBox _ b => b.dims
  | .blend _ _ b => b.dims

/-- `smooth_path(points, k=5)` from src/handler/track.py:19-30: inputs of
fewer than 3 points are returned unchanged; otherwise point `i` of the
output is the mean of `points[max(0, i-k) : min(len(points), i+k+1)]`. -/
def smooth_path (points : List (ℚ × ℚ)) (k : Nat := 5) : List (ℚ × ℚ) :=
  if points.length < 3 then points
  else
    (List.range points.length).map (fun i =>
      let lo := i - k
      let hi := min points.length (i + k + 1)
      let win := (points.drop lo).take (hi - lo)
      (((win.map Prod.fst).sum) / win.length, ((win.map Prod.snd).sum) / win.length))

/-- Appending to a Python `deque(maxlen=cap)`: the new element goes to the
right and the leftmost elements beyond the capacity are evicted. -/
def dequePush (cap : Nat) (q : List (ℚ × ℚ)) (p : ℚ × ℚ) : List (ℚ × ℚ) :=
  let q1 := q ++ [p]
  q1.drop (q1.length - cap)

/-- The effective deque capacity `self.lines_history or default_len`
(track.py:36-38): Python's `or` falls back to the default 150 when
`lines_history` is unset (`None`, modelled as `none`) or `0`. -/
def histCap (linesHistory : Option Nat) : Nat :=
  match linesHistory with
  | none => 150
  | some n => if n = 0 then 150 else n

/-- The tracker's `self.history`: a `defaultdict[int, deque]` modelled as an
insertion-ordered association list, exactly Python's dict iteration order. -/
abbrev History : Type := List (Int × List (ℚ × ℚ))

/-- Look up a track ID's deque (the first entry with that key). -/
def histLookup : History → Int → Option (List (ℚ × ℚ))
  | [], _ => none
  | e :: rest, tid => if e.1 = tid then some e.2 else histLookup rest tid

/-- `self.history[tid].append((cx, cy))`: appending through the
`defaultdict` creates an empty bounded deque for an unseen ID (inserted at
the end of the dict order) and pushes the point into the ID's deque. -/
def histAppend (cap : Nat) (h : History) (tid : Int) (p : ℚ × ℚ) : History :=
  match histLookup h tid with
  | some _ => h.map (fun e => if e.1 = tid then (e.1, dequePush cap e.2 p) else e)
  | none => h ++ [(tid, dequePush cap [] p)]

/-- Lines 72-74 of track.py: for every `(box, tid)` pair of the frame,
append the box center to `history[tid]`. -/
def appendDetections (cap : Nat) (dets : List (Box × Int)) (h : History) : History :=
  dets.foldl (fun acc d => histAppend cap acc d.2 (d.1.x, d.1.y)) h

/-- Lines 76-79 of track.py: remove every track that is absent from the
current frame's IDs and has fewer than 2 history points (iteration over
`list(self.history)` with deletion is a filter on the dict). -/
def pruneHistory (active : List Int) (h : History) : History :=
  h.filter (fun e => decide (e.1 ∈ active) || decide (2 ≤ e.2.length))

/-- The history update `draw_history` performs for one frame (append all
detections, then prune), given the effective deque capacity. -/
def historyStep (cap : Nat) (dets : List (Box × Int)) (h : History) : History :=
  pruneHistory (dets.map (·.2)) (appendDetections cap dets h)

end AirVision
namespace AirVision

/-! ## Trail rendering (track.py:81-114) -/

/-- One `cv2.line` / `cv2.arrowedLine` call: integer endpoints, a color
triple (as the ints the code passes to OpenCV) and a stroke thickness. -/
structure Seg where
  p1 : Int × Int
  p2 : Int × Int
  color : Nat × Nat × Nat
  thickness : Nat
deriving DecidableEq

/-- `tuple(int(c * alpha) for c in base_color)` (track.py:94). -/
def scaleColor (c : Nat × Nat × Nat) (alpha : ℚ) : Nat × Nat × Nat :=
  (pyIntN (c.1 * alpha), pyIntN (c.2.1 * alpha), pyIntN (c.2.2 * alpha))

/-- The `cv2.line` calls of the per-track loop (track.py:90-102): with
`n = len(path) - 1`, segment `i` joins `path[i]` to `path[i+1]` with color
`base_color` scaled by `(i+1)/n`, at the configured thickness. -/
def pathSegs (path : List (ℚ × ℚ)) (baseColor : Nat × Nat × Nat) (thick : Nat) : List Seg :=
  let n := path.length - 1
  (path.zip path.tail).enum.map (fun e =>
    { p1 := (pyInt e.2.1.1, pyInt e.2.1.2)
      p2 := (pyInt e.2.2.1, pyInt e.2.2.2)
      color := scaleColor baseColor ((e.1 + 1 : ℚ) / (n : ℚ))
      thickness := thick })

/-- The `cv2.arrowedLine` call (track.py:104-114): drawn from `path[-2]` to
`path[-1]` with the full-brightness color and thickness `+1`, if and only
if the Euclidean distance between the last two points exceeds 5 (stated
squared: `math.hypot(dx, dy) > 5` iff `dx^2 + dy^2 > 25`). -/
def pathArrow (path : List (ℚ × ℚ)) (baseColor : Nat × Nat × Nat) (thick : Nat) : Option Seg :=
  match path.reverse with
  | p2 :: p1 :: _ =>
    if (p2.1 - p1.1) ^ 2 + (p2.2 - p1.2) ^ 2 > 25 then
      some { p1 := (pyInt p1.1, pyInt p1.2), p2 := (pyInt p2.1, pyInt p2.2),
             color := baseColor, thickness := thick + 1 }
    else none
  | _ => none

/-- The drawing commands one track contributes (the body of the loop at
track.py:81-114): tracks with fewer than 2 points are skipped, the path is
optionally smoothed, and segments plus the optional arrowhead are drawn
with the track's `id_to_color`. -/
def renderTrack (smooth : Bool) (thick : Nat) (tid : Int) (pts : List (ℚ × ℚ)) :
    List Seg × Option Seg :=
  if pts.length < 2 then ([], none)
  else
    let path := if smooth then smooth_path pts else pts
    (pathSegs path (id_to_color tid.natAbs) thick,
     pathArrow path (id_to_color tid.natAbs) thick)

/-! ## The Tracker handler (src/handler/track.py)

`HandlerBase` (src/handler/base.py is not part of the sources) provides the
attributes `counter`, `lines_history`, `hide_labels` and the `custom_box`
hook; they are modelled from the spec where noted. -/

/-- The Tracker's mutable state: the cumulative unique-ID set (modelled
from the spec: `counter` is the session's `UniqueIDSet`, monotonically
grown by `self.counter.update(ids)`) and the per-track history. -/
structure TrackerState where
  counter : Finset Int
  history : History
deriving DecidableEq

/-- `Tracker.annotate_frame` (track.py:43-64).  The external
`model.track` result arrives as `res`.  Extracting the IDs
(`results[0].boxes.id.int().cpu().tolist()`) fails when `ids = none`; the
`except` path then returns the unmodified frame with metric 0, and state is
untouched because the failure happens before `counter.update`.  On success
the counter absorbs the IDs and the frame is rendered — via `custom_box`
(modelled from the spec: it draws boxes and the trail history, so it
applies `historyStep`) when labels are hidden, else via `results[0].plot()`
(which leaves `self.history` untouched).  Returns (state, frame, metric). -/
def trackerAnnotate (linesHistory : Option Nat) (hideLabels : Bool)
    (res : TrackResults) (st : TrackerState) (frame : Image) :
    TrackerState × Image × Nat :=
  match res.ids with
  | none => (st, frame, 0)
  | some ids =>
    let counter1 := ids.foldl (fun s i => insert i s) st.counter
    if hideLabels then
      let dets := res.boxes.zip ids
      let hist1 := historyStep (histCap linesHistory) dets st.history
      (⟨counter1, hist1⟩, Image.customBox res frame, ids.length)
    else
      (⟨counter1, st.history⟩, Image.plot res frame, ids.length)

end AirVision
namespace AirVision

/-! ## The HeatmapGenerator handler (src/handler/heatmap.py) -/

/-- The numpy heatmap grid: an `h × w` float array, one cell per pixel.
`cells row col` is the value at `self.heatmap[row][col]`; cells outside
the `h × w` range are irrelevant (kept at whatever the function yields)
and never counted. -/
structure Grid where
  h : Nat
  w : Nat
  cells : Nat → Nat → ℚ

/-- `np.zeros((h, w), dtype=np.float32)`. -/
def zeroGrid (h w : Nat) : Grid := ⟨h, w, fun _ _ => 0⟩

/-- `cv2.circle(self.heatmap, (cx, cy), radius, 1.0, thickness=-1)`: set
every grid cell within the filled disk of the given radius around
`(cx, cy)` to `1.0` (OpenCV clips the disk to the image bounds; the disk is
modelled as the Euclidean ball `dx^2 + dy^2 ≤ r^2`). -/
def stampDisk (g : Grid) (cx cy : Int) (r : Nat) : Grid :=
  { g with cells := fun row col =>
      if row < g.h ∧ col < g.w ∧ ((col : Int) - cx) ^ 2 + ((row : Int) - cy) ^ 2 ≤ (r : Int) ^ 2
      then 1 else g.cells row col }

/-- The loop body of lines 32-35 of heatmap.py: take
`cx, cy = int(x), int(y)` and stamp a disk at `(cx, cy)` when
`0 <= cx < w and 0 <= cy < h`; out-of-bounds centers are skipped
entirely. -/
def stampStep (hh ww r : Nat) (acc : Grid) (b : Box) : Grid :=
  if 0 ≤ pyInt b.x ∧ pyInt b.x < (ww : Int) ∧ 0 ≤ pyInt b.y ∧ pyInt b.y < (hh : Int)
  then stampDisk acc (pyInt b.x) (pyInt b.y) r else acc

/-- Lines 32-35 of heatmap.py: stamp every box of the frame. -/
def stampBoxes (hh ww r : Nat) (boxes : List Box) (g : Grid) : Grid :=
  boxes.foldl (stampStep hh ww r) g

/-- `np.count_nonzero(self.heatmap)`: the number of in-range cells holding
a nonzero value. -/
def nonzeroCount (g : Grid) : Nat :=
  ((Finset.range g.h ×ˢ Finset.range g.w).filter
    (fun p => g.cells p.1 p.2 ≠ 0)).card

/-- The number of in-range cells holding a strictly positive value (the
spec's `count(cells > 0)`; it coincides with `nonzeroCount` on the 0/1
grids the code builds). -/
def posCount (g : Grid) : Nat :=
  ((Finset.range g.h ×ˢ Finset.range g.w).filter
    (fun p => 0 < g.cells p.1 p.2)).card

/-- The HeatmapGenerator's mutable state (heatmap.py:8-14): the lazily
allocated grid and the last computed coverage statistic. -/
structure HeatmapState where
  heatmap : Option Grid
  alpha : ℚ
  radius : Nat
  blur : Bool
  coverage : ℚ

/-- Lines 22-24 of heatmap.py:
`if self.heatmap is None or self.heatmap.shape != (h, w):`
`self.heatmap = np.zeros((h, w), dtype=np.float32)` —
the grid is kept when its shape matches the frame, else replaced by a
fresh zero grid of the frame's dimensions. -/
def reallocGrid (og : Option Grid) (hw : Nat × Nat) : Grid :=
  match og with
  | some g => if (g.h, g.w) = hw then g else zeroGrid hw.1 hw.2
  | none => zeroGrid hw.1 hw.2

/-- `HeatmapGenerator.annotate_frame` (heatmap.py:19-50).  The grid is
(re)allocated zero-filled before the detector runs whenever it is unset or
its shape differs from the frame's `h × w`.  The external `model.predict`
result arrives as `dets`; `dets = none` models a detector failure (or a
malformed result), and — since this method has no `try`/`except` — the
exception propagates out (`Except.error`), after the reallocation already
happened.  On success every box center is stamped, coverage is recomputed
from the raw grid, and a normalized/blurred/color-mapped overlay is
alpha-blended over the frame; the metric is the current box count. -/
def heatmapAnnotate (dets : Option (List Box)) (st : HeatmapState) (frame : Image) :
    HeatmapState × Except Unit (Image × Nat) :=
  let hw := frame.dims
  let g0 := reallocGrid st.heatmap hw
  match dets with
  | none => ({ st with heatmap := some g0 }, Except.error ())
  | some boxes =>
    let g1 := stampBoxes hw.1 hw.2 st.radius boxes g0
    let cov := (nonzeroCount g1 : ℚ) / ((hw.1 : ℚ) * (hw.2 : ℚ)) * 100
    ({ st with heatmap := some g1, coverage := cov },
     Except.ok (Image.blend st.alpha st.blur frame, boxes.length))

end AirVision
namespace AirVision

/-- The grids the handler builds only ever hold the values 0 and 1. -/
def grid01 (g : Grid) : Prop := ∀ row col, g.cells row col = 0 ∨ g.cells row col = 1

/-- One box's disk covers the cell `(row, col)` of an `hh × ww` grid:
the center passes the bounds check and the cell lies in the clipped disk. -/
abbrev hitBy (hh ww r : Nat) (b : Box) (row col : Nat) : Prop :=
  (0 ≤ pyInt b.x ∧ pyInt b.x < (ww : Int) ∧ 0 ≤ pyInt b.y ∧ pyInt b.y < (hh : Int)) ∧
  (row < hh ∧ col < ww ∧
    ((col : Int) - pyInt b.x) ^ 2 + ((row : Int) - pyInt b.y) ^ 2 ≤ (r : Int) ^ 2)

end AirVision
namespace AirVision

set_option maxRecDepth 40000 in
theorem igChunk1 : igLoop^[156] (19650218 % M32, 1) = (mtA1, 157) := by decide

set_option maxRecDepth 40000 in
theorem igChunk2 : igLoop^[156] (mtA1, 157) = (mtA2, 313) := by decide

set_option maxRecDepth 40000 in
theorem igChunk3 : igLoop^[156] (mtA2, 313) = (mtA3, 469) := by decide

set_option maxRecDepth 40000 in
theorem igChunk4 : igLoop^[155] (mtA3, 469) = (mtStage1, 624) := by decide

set_option maxRecDepth 40000 in
theorem ibaChunk1 : (iba1Step [1])^[156] (mtStage1, 1, 0) = (mtB1, 157, 0) := by decide

set_option maxRecDepth 40000 in
theorem ibaChunk2 : (iba1Step [1])^[156] (mtB1, 157, 0) = (mtB2, 313, 0) := by decide

set_option maxRecDepth 40000 in
theorem ibaChunk3 : (iba1Step [1])^[156] (mtB2, 313, 0) = (mtB3, 469, 0) := by decide

set_option maxRecDepth 40000 in
theorem ibaChunk4 : (iba1Step [1])^[156] (mtB3, 469, 0) = (mtStage2, 2, 0) := by decide

set_option maxRecDepth 40000 in
theorem ibbChunk1 : iba2Step^[156] (mtStage2, 2) = (mtC1, 158) := by decide

set_option maxRecDepth 40000 in
theorem ibbChunk2 : iba2Step^[156] (mtC1, 158) = (mtC2, 314) := by decide

set_option maxRecDepth 40000 in
theorem ibbChunk3 : iba2Step^[156] (mtC2, 314) = (mtC3, 470) := by decide

set_option maxRecDepth 40000 in
theorem ibbChunk4 : iba2Step^[155] (mtC3, 470) = (mtStage3, 2) := by decide

set_option maxRecDepth 40000 in
theorem wsetStage4 : wset mtStage3 0 2147483648 = mtStage4 := by decide

set_option maxRecDepth 40000 in
theorem twChunk1 : twStep^[156] (mtStage4, 0) = (mtD1, 156) := by decide

set_option maxRecDepth 40000 in
theorem twChunk2 : twStep^[156] (mtD1, 156) = (mtD2, 312) := by decide

set_option maxRecDepth 40000 in
theorem twChunk3 : twStep^[156] (mtD2, 312) = (mtD3, 468) := by decide

set_option maxRecDepth 40000 in
theorem twChunk4 : twStep^[156] (mtD3, 468) = (mtStage5, 624) := by decide

set_option maxRecDepth 40000 in
theorem initGenrand_seed : initGenrand 19650218 = mtStage1 := by
  unfold initGenrand
  rw [(by norm_num : (623 : Nat) = 155 + (156 + (156 + 156)))]
  rw [Function.iterate_add_apply, Function.iterate_add_apply, Function.iterate_add_apply]
  rw [igChunk1, igChunk2, igChunk3, igChunk4]

set_option maxRecDepth 40000 in
theorem iba1_full : (iba1Step [1])^[624] (mtStage1, 1, 0) = (mtStage2, 2, 0) := by
  rw [(by norm_num : (624 : Nat) = 156 + (156 + (156 + 156)))]
  rw [Function.iterate_add_apply, Function.iterate_add_apply, Function.iterate_add_apply]
  rw [ibaChunk1, ibaChunk2, ibaChunk3, ibaChunk4]

set_option maxRecDepth 40000 in
theorem iba2_full : iba2Step^[623] (mtStage2, 2) = (mtStage3, 2) := by
  rw [(by norm_num : (623 : Nat) = 155 + (156 + (156 + 156)))]
  rw [Function.iterate_add_apply, Function.iterate_add_apply, Function.iterate_add_apply]
  rw [ibbChunk1, ibbChunk2, ibbChunk3, ibbChunk4]

set_option maxRecDepth 40000 in
theorem twist_stage4 : twist mtStage4 = mtStage5 := by
  unfold twist
  rw [(by norm_num : (624 : Nat) = 156 + (156 + (156 + 156)))]
  rw [Function.iterate_add_apply, Function.iterate_add_apply, Function.iterate_add_apply]
  rw [twChunk1, twChunk2, twChunk3, twChunk4]

theorem seedKey_one : seedKey 1 = [1] := by
  rw [seedKey]
  norm_num
  rw [natChunks]
  norm_num [M32]
  rw [natChunks]
  simp

set_option maxRecDepth 40000 in
theorem initByArray_one : initByArray [1] = mtStage4 := by
  show wset (iba2Step^[623]
    (((iba1Step [1])^[max 624 (List.length [1])] (initGenrand 19650218, 1, 0)).1,
     ((iba1Step [1])^[max 624 (List.length [1])] (initGenrand 19650218, 1, 0)).2.1)).1
    0 2147483648 = mtStage4
  rw [(by decide : max 624 (List.length [1]) = 624), initGenrand_seed, iba1_full]
  show wset (iba2Step^[623] (mtStage2, 2)).1 0 2147483648 = mtStage4
  rw [iba2_full]
  exact wsetStage4

set_option maxRecDepth 40000 in
theorem pySeed_one : pySeed 1 = ⟨mtStage4, 624⟩ := by
  unfold pySeed
  rw [seedKey_one, initByArray_one]

set_option maxRecDepth 40000 in
theorem hueNum_one : hueNum 1 = 1210245519433057 := by
  unfold hueNum randNumerator genrand
  rw [pySeed_one]
  norm_num
  rw [twist_stage4]
  decide

end AirVision
namespace AirVision

/-! ### Range and determinism of the drawn hue -/

theorem temper_lt (y0 : Nat) : temper y0 < M32 :=
  Nat.mod_lt _ (by decide)

theorem genrand_fst_lt (s : MTState) : (genrand s).1 < M32 :=
  temper_lt _

theorem randNumerator_fst_lt (s : MTState) : (randNumerator s).1 < 9007199254740992 := by
  have h1 : (genrand s).1 < M32 := genrand_fst_lt s
  have h2 : (genrand (genrand s).2).1 < M32 := genrand_fst_lt _
  show ((genrand s).1 >>> 5) * 67108864 + ((genrand (genrand s).2).1 >>> 6) < 9007199254740992
  have a1 : (genrand s).1 >>> 5 < 134217728 := by
    rw [Nat.shiftRight_eq_div_pow]
    exact Nat.div_lt_of_lt_mul h1
  have a2 : (genrand (genrand s).2).1 >>> 6 < 67108864 := by
    rw [Nat.shiftRight_eq_div_pow]
    exact Nat.div_lt_of_lt_mul h2
  omega

/-- The hue drawn for any track ID lies in `[0, 1)`. -/
theorem hueOf_mem_Ico (idx : Nat) : 0 ≤ hueOf idx ∧ hueOf idx < 1 := by
  constructor
  · exact div_nonneg (Nat.cast_nonneg _) (by norm_num)
  · rw [hueOf, pyRandom, div_lt_one (by norm_num)]
    exact_mod_cast randNumerator_fst_lt (pySeed idx)

end AirVision
namespace AirVision

theorem hueOf_one : hueOf 1 = (1210245519433057 : ℚ) / 9007199254740992 := by
  have h : hueOf 1 = ((hueNum 1 : ℚ)) / 9007199254740992 := rfl
  rw [h, hueNum_one]
  norm_num

theorem hsv_at_hue_one :
    hsv_to_rgb ((1210245519433057 : ℚ) / 9007199254740992) (9/10) (19/20) =
      (19/20, 141284868877839533/180143985094819840, 19/200) := by
  rw [hsv_to_rgb]
  have hfl : pyInt ((1210245519433057 : ℚ) / 9007199254740992 * 6) = 0 := by
    rw [pyInt]
    rw [if_neg (by norm_num)]
    rw [Int.floor_eq_iff]
    norm_num
  rw [if_neg (by norm_num), hfl]
  norm_num

theorem id_to_color_one : id_to_color 1 = (24, 199, 242) := by
  have h : id_to_color 1 =
      (pyIntN ((hsv_to_rgb (hueOf 1) (9/10) (19/20)).2.2 * 255),
       pyIntN ((hsv_to_rgb (hueOf 1) (9/10) (19/20)).2.1 * 255),
       pyIntN ((hsv_to_rgb (hueOf 1) (9/10) (19/20)).1 * 255)) := rfl
  rw [h, hueOf_one, hsv_at_hue_one]
  have e1 : pyIntN ((19 : ℚ)/200 * 255) = 24 := by
    rw [pyIntN, pyInt, if_neg (by norm_num)]
    rw [show ⌊(19 : ℚ)/200 * 255⌋ = 24 by rw [Int.floor_eq_iff]; norm_num]
    rfl
  have e2 : pyIntN ((141284868877839533 : ℚ)/180143985094819840 * 255) = 199 := by
    rw [pyIntN, pyInt, if_neg (by norm_num)]
    rw [show ⌊(141284868877839533 : ℚ)/180143985094819840 * 255⌋ = 199 by
      rw [Int.floor_eq_iff]; norm_num]
    rfl
  have e3 : pyIntN ((19 : ℚ)/20 * 255) = 242 := by
    rw [pyIntN, pyInt, if_neg (by norm_num)]
    rw [show ⌊(19 : ℚ)/20 * 255⌋ = 242 by rw [Int.floor_eq_iff]; norm_num]
    rfl
  rw [e1, e2, e3]

theorem id_to_color_rgb_claim_one : id_to_color_rgb_claim 1 = (242, 199, 24) := by
  rw [id_to_color_rgb_claim, hueOf_one, hsv_at_hue_one]
  have e1 : pyIntN ((19 : ℚ)/200 * 255) = 24 := by
    rw [pyIntN, pyInt, if_neg (by norm_num)]
    rw [show ⌊(19 : ℚ)/200 * 255⌋ = 24 by rw [Int.floor_eq_iff]; norm_num]
    rfl
  have e2 : pyIntN ((141284868877839533 : ℚ)/180143985094819840 * 255) = 199 := by
    rw [pyIntN, pyInt, if_neg (by norm_num)]
    rw [show ⌊(141284868877839533 : ℚ)/180143985094819840 * 255⌋ = 199 by
      rw [Int.floor_eq_iff]; norm_num]
    rfl
  have e3 : pyIntN ((19 : ℚ)/20 * 255) = 242 := by
    rw [pyIntN, pyInt, if_neg (by norm_num)]
    rw [show ⌊(19 : ℚ)/20 * 255⌋ = 242 by rw [Int.floor_eq_iff]; norm_num]
    rfl
  rw [e1, e2, e3]

end AirVision
namespace AirVision

/-! ## History lemmas (claims C3, C4, C10) -/

theorem dequePush_length_le (cap : Nat) (q : List (ℚ × ℚ)) (p : ℚ × ℚ) :
    (dequePush cap q p).length ≤ cap ∨ (dequePush cap q p).length = q.length + 1 := by
  simp only [dequePush, List.length_drop, List.length_append, List.length_cons,
    List.length_nil]
  omega

theorem dequePush_length_le_cap (cap : Nat) (q : List (ℚ × ℚ)) (p : ℚ × ℚ)
    (hq : q.length ≤ cap) : (dequePush cap q p).length ≤ cap := by
  rcases dequePush_length_le cap q p with h | h
  · exact h
  · simp only [dequePush, List.length_drop, List.length_append, List.length_cons,
      List.length_nil] at *
    omega

theorem histAppend_bound (cap : Nat) (h : History) (tid : Int) (p : ℚ × ℚ)
    (hb : ∀ e ∈ h, e.2.length ≤ cap) :
    ∀ e ∈ histAppend cap h tid p, e.2.length ≤ cap := by
  intro e he
  rw [histAppend] at he
  rcases hl : histLookup h tid with _ | q
  · rw [hl] at he
    rcases List.mem_append.mp he with h1 | h1
    · exact hb e h1
    · rcases List.mem_singleton.mp h1 with rfl
      rcases dequePush_length_le cap [] p with hh | hh
      · exact hh
      · simp only [dequePush, List.nil_append, List.length_drop, List.length_cons,
          List.length_nil] at *
        omega
  · rw [hl] at he
    rcases List.mem_map.mp he with ⟨e0, he0, rfl⟩
    by_cases hc : e0.1 = tid
    · simp only [hc, if_pos rfl]
      exact dequePush_length_le_cap cap e0.2 p (hb e0 he0)
    · simp only [if_neg hc]
      exact hb e0 he0

theorem appendDetections_bound (cap : Nat) (dets : List (Box × Int)) (h : History)
    (hb : ∀ e ∈ h, e.2.length ≤ cap) :
    ∀ e ∈ appendDetections cap dets h, e.2.length ≤ cap := by
  induction dets generalizing h with
  | nil => exact hb
  | cons d rest ih =>
    exact ih _ (histAppend_bound cap h d.2 (d.1.x, d.1.y) hb)

theorem historyStep_bound (cap : Nat) (dets : List (Box × Int)) (h : History)
    (hb : ∀ e ∈ h, e.2.length ≤ cap) :
    ∀ e ∈ historyStep cap dets h, e.2.length ≤ cap := by
  intro e he
  exact appendDetections_bound cap dets h hb e (List.mem_of_mem_filter he)

theorem histCap_pos (lh : Option Nat) : 1 ≤ histCap lh := by
  rcases lh with _ | n
  · decide
  · rw [histCap]
    split <;> omega

end AirVision
namespace AirVision

theorem histLookup_map_ne (h : History) (tid tid' : Int) (f : List (ℚ × ℚ) → List (ℚ × ℚ))
    (hne : tid' ≠ tid) :
    histLookup (h.map (fun e => if e.1 = tid' then (e.1, f e.2) else e)) tid =
      histLookup h tid := by
  induction h with
  | nil => rfl
  | cons e rest ih =>
    by_cases h1 : e.1 = tid'
    · simp only [List.map_cons, if_pos h1, histLookup]
      rw [if_neg (h1 ▸ hne), if_neg (h1 ▸ hne)]
      exact ih
    · simp only [List.map_cons, if_neg h1, histLookup]
      split
      · rfl
      · exact ih

theorem histLookup_append_none (h h2 : History) (tid : Int)
    (hn : histLookup h tid = none) :
    histLookup (h ++ h2) tid = histLookup h2 tid := by
  induction h with
  | nil => rfl
  | cons e rest ih =>
    rw [histLookup] at hn
    rcases h1 : decide (e.1 = tid) with _ | _
    · rw [List.cons_append, histLookup, if_neg (of_decide_eq_false h1)]
      exact ih (by rw [if_neg (of_decide_eq_false h1)] at hn; exact hn)
    · rw [if_pos (of_decide_eq_true h1)] at hn
      exact absurd hn (by simp)

theorem histLookup_append_singleton_ne (h : History) (tid tid' : Int)
    (dq : List (ℚ × ℚ)) (hne : tid' ≠ tid) :
    histLookup (h ++ [(tid', dq)]) tid = histLookup h tid := by
  induction h with
  | nil =>
    rw [List.nil_append]
    show (if tid' = tid then some dq else histLookup [] tid) = histLookup [] tid
    rw [if_neg hne]
  | cons e rest ih =>
    rw [List.cons_append, histLookup, histLookup]
    split
    · rfl
    · exact ih

theorem histLookup_histAppend_ne (cap : Nat) (h : History) (tid tid' : Int) (p : ℚ × ℚ)
    (hne : tid' ≠ tid) :
    histLookup (histAppend cap h tid' p) tid = histLookup h tid := by
  rcases hl : histLookup h tid' with _ | q
  · rw [histAppend, hl]
    show histLookup (h ++ [(tid', dequePush cap [] p)]) tid = histLookup h tid
    exact histLookup_append_singleton_ne h tid tid' _ hne
  · rw [histAppend, hl]
    show histLookup (h.map (fun e => if e.1 = tid' then (e.1, dequePush cap e.2 p) else e)) tid =
      histLookup h tid
    exact histLookup_map_ne h tid tid' (fun q2 => dequePush cap q2 p) hne

theorem histLookup_appendDetections_ne (cap : Nat) (dets : List (Box × Int)) (h : History)
    (tid : Int) (habs : tid ∉ dets.map (fun d => d.2)) :
    histLookup (appendDetections cap dets h) tid = histLookup h tid := by
  induction dets generalizing h with
  | nil => rfl
  | cons d rest ih =>
    rw [List.map_cons, List.mem_cons, not_or] at habs
    rw [appendDetections, List.foldl_cons]
    have := ih (histAppend cap h d.2 (d.1.x, d.1.y)) habs.2
    rw [appendDetections] at this
    rw [this, histLookup_histAppend_ne cap h tid d.2 _ (fun he => habs.1 he.symm)]

theorem histLookup_filter_of_true (h : History) (tid : Int) (q : List (ℚ × ℚ))
    (p : Int × List (ℚ × ℚ) → Bool)
    (hq : histLookup h tid = some q) (hp : p (tid, q) = true) :
    histLookup (h.filter p) tid = some q := by
  induction h with
  | nil => exact absurd hq (by rw [histLookup]; simp)
  | cons e rest ih =>
    rw [histLookup] at hq
    by_cases h1 : e.1 = tid
    · rw [if_pos h1] at hq
      have he : e = (tid, q) := by
        rcases e with ⟨a, b⟩
        simp only at h1
        simp only [Option.some.injEq] at hq
        rw [h1, hq]
      rw [List.filter_cons, he, if_pos (by rw [hp])]
      rw [histLookup, if_pos rfl]
    · rw [if_neg h1] at hq
      rw [List.filter_cons]
      split
      · rw [histLookup, if_neg h1]
        exact ih hq
      · exact ih hq

theorem histLookup_none_of_not_mem_keys (h : History) (tid : Int)
    (hk : tid ∉ h.map Prod.fst) : histLookup h tid = none := by
  induction h with
  | nil => rfl
  | cons e rest ih =>
    rw [List.map_cons, List.mem_cons, not_or] at hk
    rw [histLookup, if_neg (fun he => hk.1 he.symm)]
    exact ih hk.2

theorem histLookup_filter_none (h : History) (tid : Int)
    (p : Int × List (ℚ × ℚ) → Bool) (hn : histLookup h tid = none) :
    histLookup (h.filter p) tid = none := by
  induction h with
  | nil => rfl
  | cons e rest ih =>
    rw [histLookup] at hn
    by_cases h1 : e.1 = tid
    · rw [if_pos h1] at hn
      exact absurd hn (by simp)
    · rw [if_neg h1] at hn
      rw [List.filter_cons]
      split
      · rw [histLookup, if_neg h1]
        exact ih hn
      · exact ih hn

theorem histLookup_filter_of_false (h : History) (tid : Int) (q : List (ℚ × ℚ))
    (p : Int × List (ℚ × ℚ) → Bool) (hnd : (h.map Prod.fst).Nodup)
    (hq : histLookup h tid = some q) (hp : p (tid, q) = false) :
    histLookup (h.filter p) tid = none := by
  induction h with
  | nil => exact absurd hq (by rw [histLookup]; simp)
  | cons e rest ih =>
    rw [List.map_cons, List.nodup_cons] at hnd
    rw [histLookup] at hq
    by_cases h1 : e.1 = tid
    · rw [if_pos h1] at hq
      have he : e = (tid, q) := by
        rcases e with ⟨a, b⟩
        simp only at h1
        simp only [Option.some.injEq] at hq
        rw [h1, hq]
      rw [List.filter_cons, he, if_neg (by rw [hp]; simp)]
      exact histLookup_filter_none rest tid p
        (histLookup_none_of_not_mem_keys rest tid (h1 ▸ hnd.1))
    · rw [if_neg h1] at hq
      rw [List.filter_cons]
      split
      · rw [histLookup, if_neg h1]
        exact ih hnd.2 hq
      · exact ih hnd.2 hq

end AirVision
namespace AirVision

/-! ## Heatmap lemmas (claims C5, C6, C9) -/


theorem stampDisk_h (g : Grid) (cx cy : Int) (r : Nat) : (stampDisk g cx cy r).h = g.h := rfl

theorem stampDisk_w (g : Grid) (cx cy : Int) (r : Nat) : (stampDisk g cx cy r).w = g.w := rfl

theorem stampStep_h (hh ww r : Nat) (g : Grid) (b : Box) :
    (stampStep hh ww r g b).h = g.h := by
  rw [stampStep]
  split <;> rfl

theorem stampStep_w (hh ww r : Nat) (g : Grid) (b : Box) :
    (stampStep hh ww r g b).w = g.w := by
  rw [stampStep]
  split <;> rfl

theorem stampBoxes_h (hh ww r : Nat) (bs : List Box) (g : Grid) :
    (stampBoxes hh ww r bs g).h = g.h := by
  induction bs generalizing g with
  | nil => rfl
  | cons b rest ih =>
    rw [stampBoxes, List.foldl_cons]
    exact (ih _).trans (stampStep_h hh ww r g b)

theorem stampBoxes_w (hh ww r : Nat) (bs : List Box) (g : Grid) :
    (stampBoxes hh ww r bs g).w = g.w := by
  induction bs generalizing g with
  | nil => rfl
  | cons b rest ih =>
    rw [stampBoxes, List.foldl_cons]
    exact (ih _).trans (stampStep_w hh ww r g b)

theorem stampDisk_cells_cases (g : Grid) (cx cy : Int) (r : Nat) (row col : Nat) :
    (stampDisk g cx cy r).cells row col = 1 ∨
      (stampDisk g cx cy r).cells row col = g.cells row col := by
  show (if row < g.h ∧ col < g.w ∧ ((col : Int) - cx) ^ 2 + ((row : Int) - cy) ^ 2 ≤ (r : Int) ^ 2
      then (1 : ℚ) else g.cells row col) = 1 ∨
    (if row < g.h ∧ col < g.w ∧ ((col : Int) - cx) ^ 2 + ((row : Int) - cy) ^ 2 ≤ (r : Int) ^ 2
      then (1 : ℚ) else g.cells row col) = g.cells row col
  split
  · exact Or.inl rfl
  · exact Or.inr rfl

theorem stampDisk_cells_of_one (g : Grid) (cx cy : Int) (r : Nat) (row col : Nat)
    (h1 : g.cells row col = 1) : (stampDisk g cx cy r).cells row col = 1 := by
  show (if row < g.h ∧ col < g.w ∧ ((col : Int) - cx) ^ 2 + ((row : Int) - cy) ^ 2 ≤ (r : Int) ^ 2
    then (1 : ℚ) else g.cells row col) = 1
  split
  · rfl
  · exact h1

theorem stampBoxes_cells_cases (hh ww r : Nat) (bs : List Box) (g : Grid) (row col : Nat) :
    (stampBoxes hh ww r bs g).cells row col = 1 ∨
      (stampBoxes hh ww r bs g).cells row col = g.cells row col := by
  induction bs generalizing g with
  | nil => exact Or.inr rfl
  | cons b rest ih =>
    rw [stampBoxes, List.foldl_cons]
    rcases ih (stampStep hh ww r g b) with h1 | h1
    · exact Or.inl h1
    · rw [stampBoxes] at h1
      rw [h1, stampStep]
      split
      · exact stampDisk_cells_cases g _ _ r row col
      · exact Or.inr rfl

theorem stampBoxes_cells_of_ne_zero (hh ww r : Nat) (bs : List Box) (g : Grid)
    (row col : Nat) (h1 : g.cells row col ≠ 0) :
    (stampBoxes hh ww r bs g).cells row col ≠ 0 := by
  induction bs generalizing g with
  | nil => exact h1
  | cons b rest ih =>
    rw [stampBoxes, List.foldl_cons]
    refine ih _ ?_
    rw [stampStep]
    split
    · rcases stampDisk_cells_cases g (pyInt b.x) (pyInt b.y) r row col with h2 | h2
      · rw [h2]; norm_num
      · rw [h2]; exact h1
    · exact h1

theorem grid01_zeroGrid (h w : Nat) : grid01 (zeroGrid h w) := fun _ _ => Or.inl rfl

theorem grid01_stampDisk (g : Grid) (cx cy : Int) (r : Nat) (hg : grid01 g) :
    grid01 (stampDisk g cx cy r) := by
  intro row col
  rcases stampDisk_cells_cases g cx cy r row col with h1 | h1
  · exact Or.inr h1
  · rw [h1]; exact hg row col

theorem grid01_stampBoxes (hh ww r : Nat) (bs : List Box) (g : Grid) (hg : grid01 g) :
    grid01 (stampBoxes hh ww r bs g) := by
  induction bs generalizing g with
  | nil => exact hg
  | cons b rest ih =>
    rw [stampBoxes, List.foldl_cons]
    refine ih _ ?_
    rw [stampStep]
    split
    · exact grid01_stampDisk g _ _ r hg
    · exact hg

theorem grid01_reallocGrid (og : Option Grid) (hw : Nat × Nat)
    (hg : ∀ g, og = some g → grid01 g) : grid01 (reallocGrid og hw) := by
  rcases og with _ | g
  · exact grid01_zeroGrid hw.1 hw.2
  · rw [reallocGrid]
    split
    · exact hg g rfl
    · exact grid01_zeroGrid hw.1 hw.2

theorem reallocGrid_h_w (og : Option Grid) (hw : Nat × Nat) :
    ((reallocGrid og hw).h, (reallocGrid og hw).w) = hw := by
  rcases og with _ | g
  · rfl
  · rw [reallocGrid]
    split
    · assumption
    · rfl

theorem nonzeroCount_le (g : Grid) : nonzeroCount g ≤ g.h * g.w := by
  rw [nonzeroCount]
  calc ((Finset.range g.h ×ˢ Finset.range g.w).filter
      (fun p => g.cells p.1 p.2 ≠ 0)).card
      ≤ (Finset.range g.h ×ˢ Finset.range g.w).card := Finset.card_filter_le _ _
    _ = g.h * g.w := by rw [Finset.card_product, Finset.card_range, Finset.card_range]

theorem nonzeroCount_eq_posCount (g : Grid) (hg : grid01 g) :
    nonzeroCount g = posCount g := by
  rw [nonzeroCount, posCount]
  congr 1
  apply Finset.filter_congr
  intro p _
  rcases hg p.1 p.2 with h1 | h1 <;> rw [h1] <;> norm_num

theorem nonzeroCount_mono_stampBoxes (hh ww r : Nat) (bs : List Box) (g : Grid) :
    nonzeroCount g ≤ nonzeroCount (stampBoxes hh ww r bs g) := by
  rw [nonzeroCount, nonzeroCount, stampBoxes_h, stampBoxes_w]
  apply Finset.card_le_card
  intro p hp
  rw [Finset.mem_filter] at *
  exact ⟨hp.1, stampBoxes_cells_of_ne_zero hh ww r bs g p.1 p.2 hp.2⟩

end AirVision
namespace AirVision

theorem not_mem_keys_of_histLookup_none (h : History) (tid : Int)
    (hn : histLookup h tid = none) : tid ∉ h.map Prod.fst := by
  induction h with
  | nil => simp
  | cons e rest ih =>
    rw [histLookup] at hn
    by_cases h1 : e.1 = tid
    · rw [if_pos h1] at hn
      exact absurd hn (by simp)
    · rw [if_neg h1] at hn
      rw [List.map_cons, List.mem_cons, not_or]
      exact ⟨fun he => h1 he.symm, ih hn⟩

theorem histAppend_keys_nodup (cap : Nat) (h : History) (tid : Int) (p : ℚ × ℚ)
    (hnd : (h.map Prod.fst).Nodup) :
    ((histAppend cap h tid p).map Prod.fst).Nodup := by
  rw [histAppend]
  rcases hl : histLookup h tid with _ | q
  · rw [List.map_append]
    rw [List.nodup_append]
    refine ⟨hnd, List.nodup_singleton _, ?_⟩
    intro a ha hb
    simp only [List.map_cons, List.map_nil, List.mem_singleton] at hb
    exact not_mem_keys_of_histLookup_none h tid hl (hb ▸ ha)
  · have hk : (h.map (fun e => if e.1 = tid then (e.1, dequePush cap e.2 p) else e)).map
        Prod.fst = h.map Prod.fst := by
      rw [List.map_map]
      apply List.map_congr_left
      intro e _
      by_cases h1 : e.1 = tid
      · simp [h1]
      · simp [h1]
    rw [hk]
    exact hnd

theorem appendDetections_keys_nodup (cap : Nat) (dets : List (Box × Int)) (h : History)
    (hnd : (h.map Prod.fst).Nodup) :
    ((appendDetections cap dets h).map Prod.fst).Nodup := by
  induction dets generalizing h with
  | nil => exact hnd
  | cons d rest ih =>
    exact ih _ (histAppend_keys_nodup cap h d.2 _ hnd)

/-- A track absent from the frame whose history already has at least two
points survives a `draw_history` step with its deque unchanged. -/
theorem historyStep_absent_kept (cap : Nat) (dets : List (Box × Int)) (h : History)
    (tid : Int) (q : List (ℚ × ℚ)) (habs : tid ∉ dets.map (fun d => d.2))
    (hq : histLookup h tid = some q) (h2 : 2 ≤ q.length) :
    histLookup (historyStep cap dets h) tid = some q := by
  rw [historyStep]
  apply histLookup_filter_of_true
  · rw [histLookup_appendDetections_ne cap dets h tid habs]
    exact hq
  · simp only [Bool.or_eq_true, decide_eq_true_eq]
    exact Or.inr h2

theorem historyStep_absent_kept_iter (cap : Nat) (tid : Int) (q : List (ℚ × ℚ))
    (h2 : 2 ≤ q.length) (frames : List (List (Box × Int))) :
    ∀ h : History, histLookup h tid = some q →
      (∀ f ∈ frames, tid ∉ f.map (fun d => d.2)) →
      histLookup (frames.foldl (fun acc f => historyStep cap f acc) h) tid = some q := by
  induction frames with
  | nil => intro h hq _; exact hq
  | cons f rest ih =>
    intro h hq hall
    rw [List.foldl_cons]
    exact ih (historyStep cap f h)
      (historyStep_absent_kept cap f h tid q (hall f (List.mem_cons_self f rest)) hq h2)
      (fun f2 hf2 => hall f2 (List.mem_cons_of_mem f hf2))

/-- Claim C4: during a frame, a track absent from the detections is deleted
exactly when its history has fewer than 2 points; with 2 or more points it
survives with its deque unchanged, and (the rule being re-evaluated every
frame, with no point ever removed from an absent track) it survives every
further frame from whose detections it is absent. -/
theorem C4_prune_rule (cap : Nat) (dets : List (Box × Int)) (h : History)
    (tid : Int) (q : List (ℚ × ℚ))
    (hnd : (h.map Prod.fst).Nodup)
    (habs : tid ∉ dets.map (fun d => d.2))
    (hq : histLookup h tid = some q) :
    (q.length < 2 → histLookup (historyStep cap dets h) tid = none) ∧
    (2 ≤ q.length → histLookup (historyStep cap dets h) tid = some q) ∧
    (2 ≤ q.length → ∀ frames : List (List (Box × Int)),
      (∀ f ∈ frames, tid ∉ f.map (fun d => d.2)) →
      histLookup (frames.foldl (fun acc f => historyStep cap f acc) h) tid = some q) := by
  refine ⟨?_, ?_, ?_⟩
  · intro hlt
    rw [historyStep]
    apply histLookup_filter_of_false _ _ q
    · exact appendDetections_keys_nodup cap dets h hnd
    · rw [histLookup_appendDetections_ne cap dets h tid habs]
      exact hq
    · simp only [Bool.or_eq_false_iff, decide_eq_false_iff_not]
      exact ⟨habs, by omega⟩
  · exact historyStep_absent_kept cap dets h tid q habs hq
  · intro h2 frames hall
    exact historyStep_absent_kept_iter cap tid q h2 frames h hq hall

/-- Witness for C4 at a concrete history. -/
theorem C4_prune_rule_witness :
    (histLookup (historyStep 150 [] [((7 : Int), [((1:ℚ),(1:ℚ))])]) 7 = none) ∧
    (histLookup (historyStep 150 []
      [((7 : Int), [((1:ℚ),(1:ℚ)), ((2:ℚ),(2:ℚ))])]) 7 =
      some [((1:ℚ),(1:ℚ)), ((2:ℚ),(2:ℚ))]) := by
  constructor
  · exact (C4_prune_rule 150 [] [((7 : Int), [((1:ℚ),(1:ℚ))])] 7 [((1:ℚ),(1:ℚ))]
      (by simp) (by simp) rfl).1 (by norm_num)
  · exact (C4_prune_rule 150 [] [((7 : Int), [((1:ℚ),(1:ℚ)), ((2:ℚ),(2:ℚ))])] 7
      [((1:ℚ),(1:ℚ)), ((2:ℚ),(2:ℚ))] (by simp) (by simp) rfl).2.1 (by norm_num)

end AirVision
namespace AirVision

/-- Claim C3: with `L` the tracker's effective trail capacity
(`lines_history or 150`, so `L = 150` when unconfigured), every deque's
length stays at most `L` across a `draw_history` step, the capacity is
positive, and appending to a full deque evicts exactly the oldest point. -/
theorem C3_history_bounded (lh : Option Nat) (dets : List (Box × Int)) (h : History)
    (hb : ∀ e ∈ h, e.2.length ≤ histCap lh) (q : List (ℚ × ℚ)) (p : ℚ × ℚ)
    (hful : q.length = histCap lh) :
    (∀ e ∈ historyStep (histCap lh) dets h, e.2.length ≤ histCap lh) ∧
    histCap none = 150 ∧ 1 ≤ histCap lh ∧
    dequePush (histCap lh) q p = q.drop 1 ++ [p] := by
  refine ⟨historyStep_bound _ dets h hb, rfl, histCap_pos lh, ?_⟩
  rw [dequePush]
  have hlen : (q ++ [p]).length - histCap lh = 1 := by
    rw [List.length_append, List.length_cons, List.length_nil, hful]
    omega
  rw [hlen]
  exact List.drop_append_of_le_length (by rw [hful]; exact histCap_pos lh)

/-- Witness for C3 at a concrete capacity-3 configuration and full deque. -/
theorem C3_history_bounded_witness :
    (∀ e ∈ historyStep (histCap (some 3)) []
        [((1 : Int), [((0:ℚ),(0:ℚ))])], e.2.length ≤ histCap (some 3)) ∧
    histCap none = 150 ∧ 1 ≤ histCap (some 3) ∧
    dequePush (histCap (some 3)) [((0:ℚ),(0:ℚ)), ((1:ℚ),(1:ℚ)), ((2:ℚ),(2:ℚ))] ((3:ℚ),(3:ℚ)) =
      [((0:ℚ),(0:ℚ)), ((1:ℚ),(1:ℚ)), ((2:ℚ),(2:ℚ))].drop 1 ++ [((3:ℚ),(3:ℚ))] :=
  C3_history_bounded (some 3) [] [((1 : Int), [((0:ℚ),(0:ℚ))])]
    (by intro e he; rcases List.mem_singleton.mp he with rfl; simp [histCap])
    [((0:ℚ),(0:ℚ)), ((1:ℚ),(1:ℚ)), ((2:ℚ),(2:ℚ))] ((3:ℚ),(3:ℚ)) (by simp [histCap])

/-- Claim C7: smoothing preserves the sequence length, returns inputs of
fewer than 3 points unchanged, and otherwise produces at index `i` the
arithmetic mean of the points in the window `[i-5, i+5]` clamped to the
sequence (`points[max(0,i-5) : min(len, i+5+1)]`). -/
theorem C7_smooth_path (pts : List (ℚ × ℚ)) :
    (smooth_path pts).length = pts.length ∧
    (pts.length < 3 → smooth_path pts = pts) ∧
    (3 ≤ pts.length → ∀ i, i < pts.length →
      (smooth_path pts)[i]? =
        some ((((pts.drop (i - 5)).take (min pts.length (i + 5 + 1) - (i - 5))).map
            Prod.fst).sum /
            (((pts.drop (i - 5)).take (min pts.length (i + 5 + 1) - (i - 5))).length),
          (((pts.drop (i - 5)).take (min pts.length (i + 5 + 1) - (i - 5))).map
            Prod.snd).sum /
            (((pts.drop (i - 5)).take (min pts.length (i + 5 + 1) - (i - 5))).length))) := by
  refine ⟨?_, ?_, ?_⟩
  · rw [smooth_path]
    split
    · rfl
    · rw [List.length_map, List.length_range]
  · intro h3
    rw [smooth_path, if_pos h3]
  · intro h3 i hi
    rw [smooth_path, if_neg (by omega)]
    rw [List.getElem?_map, List.getElem?_range hi]
    rfl

/-- Witness for C7: a 2-point input is returned unchanged, and on a 4-point
input index 0 gets the clamped-window mean. -/
theorem C7_smooth_path_witness :
    smooth_path [((0:ℚ),(0:ℚ)), ((2:ℚ),(2:ℚ))] = [((0:ℚ),(0:ℚ)), ((2:ℚ),(2:ℚ))] ∧
    (smooth_path [((0:ℚ),(0:ℚ)), ((2:ℚ),(2:ℚ)), ((4:ℚ),(4:ℚ)), ((6:ℚ),(6:ℚ))])[0]? =
      some (((([((0:ℚ),(0:ℚ)), ((2:ℚ),(2:ℚ)), ((4:ℚ),(4:ℚ)), ((6:ℚ),(6:ℚ))].drop (0 - 5)).take
          (min 4 (0 + 5 + 1) - (0 - 5))).map Prod.fst).sum /
          ((([((0:ℚ),(0:ℚ)), ((2:ℚ),(2:ℚ)), ((4:ℚ),(4:ℚ)), ((6:ℚ),(6:ℚ))].drop (0 - 5)).take
          (min 4 (0 + 5 + 1) - (0 - 5))).length),
        ((([((0:ℚ),(0:ℚ)), ((2:ℚ),(2:ℚ)), ((4:ℚ),(4:ℚ)), ((6:ℚ),(6:ℚ))].drop (0 - 5)).take
          (min 4 (0 + 5 + 1) - (0 - 5))).map Prod.snd).sum /
          ((([((0:ℚ),(0:ℚ)), ((2:ℚ),(2:ℚ)), ((4:ℚ),(4:ℚ)), ((6:ℚ),(6:ℚ))].drop (0 - 5)).take
          (min 4 (0 + 5 + 1) - (0 - 5))).length)) :=
  ⟨(C7_smooth_path [((0:ℚ),(0:ℚ)), ((2:ℚ),(2:ℚ))]).2.1 (by norm_num),
   (C7_smooth_path [((0:ℚ),(0:ℚ)), ((2:ℚ),(2:ℚ)), ((4:ℚ),(4:ℚ)), ((6:ℚ),(6:ℚ))]).2.2
     (by norm_num) 0 (by norm_num)⟩

set_option maxRecDepth 4000 in
/-- Claim C10: a configured trail length of 0 (and an unset one) falls back
to the default capacity 150 through `self.lines_history or default_len`, so
histories keep growing (two appends give a length-2, renderable deque)
instead of being stuck empty. -/
theorem C10_zero_capacity_default (q : List (ℚ × ℚ)) (p1 p2 : ℚ × ℚ)
    (hq : q.length < 150) :
    histCap (some 0) = 150 ∧ histCap none = 150 ∧
    (dequePush (histCap (some 0)) q p1).length = q.length + 1 ∧
    (dequePush (histCap (some 0)) (dequePush (histCap (some 0)) [] p1) p2).length = 2 := by
  refine ⟨rfl, rfl, ?_, rfl⟩
  have hcap : histCap (some 0) = 150 := rfl
  rw [hcap, dequePush]
  simp only [List.length_drop, List.length_append, List.length_cons, List.length_nil]
  omega

/-- Witness for C10 at the empty deque. -/
theorem C10_zero_capacity_default_witness :
    histCap (some 0) = 150 ∧ histCap none = 150 ∧
    (dequePush (histCap (some 0)) [] ((5:ℚ),(5:ℚ))).length = ([] : List (ℚ × ℚ)).length + 1 ∧
    (dequePush (histCap (some 0))
      (dequePush (histCap (some 0)) [] ((5:ℚ),(5:ℚ))) ((6:ℚ),(6:ℚ))).length = 2 :=
  C10_zero_capacity_default [] ((5:ℚ),(5:ℚ)) ((6:ℚ),(6:ℚ)) (by norm_num)

end AirVision
namespace AirVision

/-- Claim C9: per annotate call, the grid is lazily allocated (zero-filled)
at the frame's dimensions when unset, reallocated zero-filled (discarding
all accumulated density) when the incoming frame's dimensions differ from
its shape, and kept — stamping aside — when they match. -/
theorem C9_grid_realloc (bs : List Box) (st : HeatmapState) (f : Image) :
    (st.heatmap = none →
      (heatmapAnnotate (some bs) st f).1.heatmap =
        some (stampBoxes f.dims.1 f.dims.2 st.radius bs (zeroGrid f.dims.1 f.dims.2))) ∧
    (∀ g, st.heatmap = some g → (g.h, g.w) ≠ f.dims →
      (heatmapAnnotate (some bs) st f).1.heatmap =
        some (stampBoxes f.dims.1 f.dims.2 st.radius bs (zeroGrid f.dims.1 f.dims.2))) ∧
    (∀ g, st.heatmap = some g → (g.h, g.w) = f.dims →
      (heatmapAnnotate (some bs) st f).1.heatmap =
        some (stampBoxes f.dims.1 f.dims.2 st.radius bs g)) := by
  have base : (heatmapAnnotate (some bs) st f).1.heatmap =
      some (stampBoxes f.dims.1 f.dims.2 st.radius bs (reallocGrid st.heatmap f.dims)) := rfl
  refine ⟨?_, ?_, ?_⟩
  · intro hn
    rw [base, hn]
    rfl
  · intro g hg hne
    rw [base, hg]
    rw [show reallocGrid (some g) f.dims = zeroGrid f.dims.1 f.dims.2 by
      rw [reallocGrid]; exact if_neg hne]
  · intro g hg heq
    rw [base, hg]
    rw [show reallocGrid (some g) f.dims = g by rw [reallocGrid]; exact if_pos heq]

/-- Witness for C9: a fresh state allocates a 2×3 zero grid; a 2×2 grid is
discarded on a 2×3 frame; a 2×3 grid is kept on a 2×3 frame. -/
theorem C9_grid_realloc_witness :
    ((heatmapAnnotate (some []) ⟨none, 2/5, 15, true, 0⟩ (Image.frame 2 3 0)).1.heatmap =
      some (stampBoxes 2 3 15 [] (zeroGrid 2 3))) ∧
    ((heatmapAnnotate (some []) ⟨some (zeroGrid 2 2), 2/5, 15, true, 0⟩
        (Image.frame 2 3 0)).1.heatmap = some (stampBoxes 2 3 15 [] (zeroGrid 2 3))) ∧
    ((heatmapAnnotate (some []) ⟨some (zeroGrid 2 3), 2/5, 15, true, 0⟩
        (Image.frame 2 3 0)).1.heatmap = some (stampBoxes 2 3 15 [] (zeroGrid 2 3))) :=
  ⟨(C9_grid_realloc [] ⟨none, 2/5, 15, true, 0⟩ (Image.frame 2 3 0)).1 rfl,
   (C9_grid_realloc [] ⟨some (zeroGrid 2 2), 2/5, 15, true, 0⟩ (Image.frame 2 3 0)).2.1
     (zeroGrid 2 2) rfl (by decide),
   (C9_grid_realloc [] ⟨some (zeroGrid 2 3), 2/5, 15, true, 0⟩ (Image.frame 2 3 0)).2.2
     (zeroGrid 2 3) rfl rfl⟩

end AirVision
namespace AirVision

theorem annotate_coverage_eq (bs : List Box) (st : HeatmapState) (f : Image) :
    (heatmapAnnotate (some bs) st f).1.coverage =
      (nonzeroCount (stampBoxes f.dims.1 f.dims.2 st.radius bs
        (reallocGrid st.heatmap f.dims)) : ℚ) /
        ((f.dims.1 : ℚ) * (f.dims.2 : ℚ)) * 100 := rfl

theorem annotate_heatmap_eq (bs : List Box) (st : HeatmapState) (f : Image) :
    (heatmapAnnotate (some bs) st f).1.heatmap =
      some (stampBoxes f.dims.1 f.dims.2 st.radius bs (reallocGrid st.heatmap f.dims)) := rfl

theorem annotate_radius_eq (bs : List Box) (st : HeatmapState) (f : Image) :
    (heatmapAnnotate (some bs) st f).1.radius = st.radius := rfl

theorem stamped_grid_h (bs : List Box) (st : HeatmapState) (f : Image) :
    (stampBoxes f.dims.1 f.dims.2 st.radius bs (reallocGrid st.heatmap f.dims)).h =
      f.dims.1 := by
  rw [stampBoxes_h]
  exact congrArg Prod.fst (reallocGrid_h_w st.heatmap f.dims)

theorem stamped_grid_w (bs : List Box) (st : HeatmapState) (f : Image) :
    (stampBoxes f.dims.1 f.dims.2 st.radius bs (reallocGrid st.heatmap f.dims)).w =
      f.dims.2 := by
  rw [stampBoxes_w]
  exact congrArg Prod.snd (reallocGrid_h_w st.heatmap f.dims)

/-- Claim C5: coverage is always within `[0, 100]`, is computed each frame
from the raw (pre-normalization) grid as `count(cells > 0) / (h*w) * 100`,
and is non-decreasing across consecutive frames of unchanged grid size. -/
theorem C5_coverage (st0 : HeatmapState) (f1 f2 : Image) (b1 b2 : List Box)
    (hdims : f1.dims = f2.dims) (hpos : 0 < f1.dims.1 * f1.dims.2)
    (h01 : ∀ g, st0.heatmap = some g → grid01 g) :
    (0 ≤ (heatmapAnnotate (some b1) st0 f1).1.coverage ∧
     (heatmapAnnotate (some b1) st0 f1).1.coverage ≤ 100) ∧
    (∀ g1, (heatmapAnnotate (some b1) st0 f1).1.heatmap = some g1 →
      (heatmapAnnotate (some b1) st0 f1).1.coverage =
        (posCount g1 : ℚ) / ((f1.dims.1 : ℚ) * (f1.dims.2 : ℚ)) * 100) ∧
    (heatmapAnnotate (some b1) st0 f1).1.coverage ≤
      (heatmapAnnotate (some b2) (heatmapAnnotate (some b1) st0 f1).1 f2).1.coverage := by
  have hq : (0 : ℚ) < (f1.dims.1 : ℚ) * (f1.dims.2 : ℚ) := by exact_mod_cast hpos
  set g1 := stampBoxes f1.dims.1 f1.dims.2 st0.radius b1 (reallocGrid st0.heatmap f1.dims)
    with hg1
  have hg1h : g1.h = f1.dims.1 := stamped_grid_h b1 st0 f1
  have hg1w : g1.w = f1.dims.2 := stamped_grid_w b1 st0 f1
  have hg101 : grid01 g1 :=
    grid01_stampBoxes _ _ _ _ _ (grid01_reallocGrid st0.heatmap f1.dims h01)
  refine ⟨⟨?_, ?_⟩, ?_, ?_⟩
  · rw [annotate_coverage_eq]
    positivity
  · rw [annotate_coverage_eq]
    have hle : (nonzeroCount g1 : ℚ) ≤ (f1.dims.1 : ℚ) * (f1.dims.2 : ℚ) := by
      have h2 := nonzeroCount_le g1
      rw [hg1h, hg1w] at h2
      exact_mod_cast h2
    calc (nonzeroCount g1 : ℚ) / ((f1.dims.1 : ℚ) * (f1.dims.2 : ℚ)) * 100
        ≤ 1 * 100 := by
          apply mul_le_mul_of_nonneg_right _ (by norm_num)
          rw [div_le_one hq]
          exact hle
      _ = 100 := by norm_num
  · intro g1x hgx
    rw [annotate_heatmap_eq] at hgx
    have hxx : g1x = g1 := (Option.some.inj hgx).symm
    rw [hxx, annotate_coverage_eq, nonzeroCount_eq_posCount g1 hg101]
  · have hre : reallocGrid (heatmapAnnotate (some b1) st0 f1).1.heatmap f2.dims = g1 := by
      rw [annotate_heatmap_eq, reallocGrid]
      exact if_pos (by rw [hg1h, hg1w, hdims])
    rw [annotate_coverage_eq b2, hre, annotate_radius_eq, ← hdims,
      annotate_coverage_eq b1]
    have hmono : (nonzeroCount g1 : ℚ) ≤
        (nonzeroCount (stampBoxes f1.dims.1 f1.dims.2 st0.radius b2 g1) : ℚ) := by
      exact_mod_cast nonzeroCount_mono_stampBoxes f1.dims.1 f1.dims.2 st0.radius b2 g1
    gcongr

end AirVision
namespace AirVision

/-- Witness for C5: one detection on a fresh 3×3 run, then an empty frame. -/
theorem C5_coverage_witness :
    (0 ≤ (heatmapAnnotate (some [⟨1, 1, 1, 1⟩]) ⟨none, 2/5, 3, true, 0⟩
        (Image.frame 3 3 0)).1.coverage ∧
      (heatmapAnnotate (some [⟨1, 1, 1, 1⟩]) ⟨none, 2/5, 3, true, 0⟩
        (Image.frame 3 3 0)).1.coverage ≤ 100) ∧
    ((heatmapAnnotate (some [⟨1, 1, 1, 1⟩]) ⟨none, 2/5, 3, true, 0⟩
        (Image.frame 3 3 0)).1.coverage =
      (posCount (stampBoxes 3 3 3 [⟨1, 1, 1, 1⟩] (zeroGrid 3 3)) : ℚ) /
        (((Image.frame 3 3 0).dims.1 : ℚ) * ((Image.frame 3 3 0).dims.2 : ℚ)) * 100) ∧
    ((heatmapAnnotate (some [⟨1, 1, 1, 1⟩]) ⟨none, 2/5, 3, true, 0⟩
        (Image.frame 3 3 0)).1.coverage ≤
      (heatmapAnnotate (some [])
        (heatmapAnnotate (some [⟨1, 1, 1, 1⟩]) ⟨none, 2/5, 3, true, 0⟩
          (Image.frame 3 3 0)).1 (Image.frame 3 3 0)).1.coverage) :=
  ⟨(C5_coverage ⟨none, 2/5, 3, true, 0⟩ (Image.frame 3 3 0) (Image.frame 3 3 0)
      [⟨1, 1, 1, 1⟩] [] rfl (by decide) (fun g h => nomatch h)).1,
   (C5_coverage ⟨none, 2/5, 3, true, 0⟩ (Image.frame 3 3 0) (Image.frame 3 3 0)
      [⟨1, 1, 1, 1⟩] [] rfl (by decide) (fun g h => nomatch h)).2.1
      (stampBoxes 3 3 3 [⟨1, 1, 1, 1⟩] (zeroGrid 3 3)) rfl,
   (C5_coverage ⟨none, 2/5, 3, true, 0⟩ (Image.frame 3 3 0) (Image.frame 3 3 0)
      [⟨1, 1, 1, 1⟩] [] rfl (by decide) (fun g h => nomatch h)).2.2⟩

/-! ### Saturation of stamping (claim C6) -/


theorem stampStep_cells_char (hh ww r : Nat) (g : Grid) (b : Box) (row col : Nat)
    (hgh : g.h = hh) (hgw : g.w = ww) :
    (stampStep hh ww r g b).cells row col =
      if hitBy hh ww r b row col then 1 else g.cells row col := by
  subst hgh
  subst hgw
  by_cases hin : 0 ≤ pyInt b.x ∧ pyInt b.x < (g.w : Int) ∧ 0 ≤ pyInt b.y ∧
      pyInt b.y < (g.h : Int)
  · rw [stampStep, if_pos hin]
    show (if row < g.h ∧ col < g.w ∧
        ((col : Int) - pyInt b.x) ^ 2 + ((row : Int) - pyInt b.y) ^ 2 ≤ (r : Int) ^ 2
      then (1 : ℚ) else g.cells row col) = _
    by_cases hdisk : row < g.h ∧ col < g.w ∧
        ((col : Int) - pyInt b.x) ^ 2 + ((row : Int) - pyInt b.y) ^ 2 ≤ (r : Int) ^ 2
    · rw [if_pos hdisk, if_pos ⟨hin, hdisk⟩]
    · rw [if_neg hdisk, if_neg (fun hb => hdisk hb.2)]
  · rw [stampStep, if_neg hin, if_neg (fun hb => hin hb.1)]

theorem stampBoxes_cells_char (hh ww r : Nat) (bs : List Box) (g : Grid) (row col : Nat)
    (hgh : g.h = hh) (hgw : g.w = ww) :
    (stampBoxes hh ww r bs g).cells row col =
      if ∃ b ∈ bs, hitBy hh ww r b row col then 1 else g.cells row col := by
  induction bs generalizing g with
  | nil =>
    rw [if_neg (by simp)]
    rfl
  | cons b rest ih =>
    rw [stampBoxes, List.foldl_cons]
    have hrec := ih (stampStep hh ww r g b)
      ((stampStep_h hh ww r g b).trans hgh) ((stampStep_w hh ww r g b).trans hgw)
    rw [stampBoxes] at hrec
    rw [hrec, stampStep_cells_char hh ww r g b row col hgh hgw]
    by_cases h1 : ∃ b2 ∈ rest, hitBy hh ww r b2 row col
    · rcases h1 with ⟨b2, hb2, hh2⟩
      rw [if_pos ⟨b2, hb2, hh2⟩, if_pos ⟨b2, List.mem_cons_of_mem b hb2, hh2⟩]
    · rw [if_neg h1]
      by_cases h2 : hitBy hh ww r b row col
      · rw [if_pos h2, if_pos ⟨b, List.mem_cons_self b rest, h2⟩]
      · rw [if_neg h2, if_neg ?_]
        rintro ⟨b2, hb2, hh2⟩
        rcases List.mem_cons.mp hb2 with rfl | hmem
        · exact h2 hh2
        · exact h1 ⟨b2, hmem, hh2⟩

end AirVision
namespace AirVision

theorem nonzeroCount_congr (g g' : Grid) (hgh : g.h = g'.h) (hgw : g.w = g'.w)
    (hc : ∀ row col, g.cells row col = g'.cells row col) :
    nonzeroCount g = nonzeroCount g' := by
  rw [nonzeroCount, nonzeroCount, hgh, hgw]
  congr 1
  apply Finset.filter_congr
  intro p _
  rw [hc p.1 p.2]

/-- Claim C6: stamping is a saturating set operation — a disk stamp writes
the value 1.0 into the covered cells and leaves the rest; stamping the same
disk again changes no cell; re-running `annotate_frame` with the same
detections on an unchanged frame size changes neither the grid nor the
coverage statistic; and a detection whose center fails the frame-bounds
check is not stamped at all. -/
theorem C6_stamp_saturating (g : Grid) (cx cy : Int) (r : Nat)
    (st : HeatmapState) (f : Image) (bs : List Box) (b : Box)
    (hout : ¬ (0 ≤ pyInt b.x ∧ pyInt b.x < (f.dims.2 : Int) ∧ 0 ≤ pyInt b.y ∧
      pyInt b.y < (f.dims.1 : Int))) :
    (∀ row col, (stampDisk (stampDisk g cx cy r) cx cy r).cells row col =
        (stampDisk g cx cy r).cells row col) ∧
    (∀ row col, (stampDisk g cx cy r).cells row col = 1 ∨
        (stampDisk g cx cy r).cells row col = g.cells row col) ∧
    (∀ g1 g2, (heatmapAnnotate (some bs) st f).1.heatmap = some g1 →
      (heatmapAnnotate (some bs) (heatmapAnnotate (some bs) st f).1 f).1.heatmap = some g2 →
      (∀ row col, g2.cells row col = g1.cells row col) ∧
      (heatmapAnnotate (some bs) (heatmapAnnotate (some bs) st f).1 f).1.coverage =
        (heatmapAnnotate (some bs) st f).1.coverage) ∧
    (heatmapAnnotate (some [b]) st f).1.heatmap = some (reallocGrid st.heatmap f.dims) := by
  have hg1h := stamped_grid_h bs st f
  have hg1w := stamped_grid_w bs st f
  refine ⟨?_, fun row col => stampDisk_cells_cases g cx cy r row col, ?_, ?_⟩
  · intro row col
    show (if row < (stampDisk g cx cy r).h ∧ col < (stampDisk g cx cy r).w ∧
        ((col : Int) - cx) ^ 2 + ((row : Int) - cy) ^ 2 ≤ (r : Int) ^ 2
      then (1 : ℚ) else (stampDisk g cx cy r).cells row col) =
      (stampDisk g cx cy r).cells row col
    rw [stampDisk_h, stampDisk_w]
    split
    · next hcond =>
      exact (show (stampDisk g cx cy r).cells row col = 1 from
        (show (if row < g.h ∧ col < g.w ∧
            ((col : Int) - cx) ^ 2 + ((row : Int) - cy) ^ 2 ≤ (r : Int) ^ 2
          then (1 : ℚ) else g.cells row col) = 1 from if_pos hcond)).symm
    · rfl
  · intro g1 g2 h1 h2
    rw [annotate_heatmap_eq] at h1
    rw [annotate_heatmap_eq] at h2
    have hre : reallocGrid (heatmapAnnotate (some bs) st f).1.heatmap f.dims =
        stampBoxes f.dims.1 f.dims.2 st.radius bs (reallocGrid st.heatmap f.dims) := by
      rw [annotate_heatmap_eq, reallocGrid]
      exact if_pos (by rw [hg1h, hg1w])
    rw [hre, annotate_radius_eq] at h2
    have hg1 : g1 = stampBoxes f.dims.1 f.dims.2 st.radius bs
        (reallocGrid st.heatmap f.dims) := (Option.some.inj h1).symm
    have hg2 : g2 = stampBoxes f.dims.1 f.dims.2 st.radius bs
        (stampBoxes f.dims.1 f.dims.2 st.radius bs (reallocGrid st.heatmap f.dims)) :=
      (Option.some.inj h2).symm
    have hcells : ∀ row col, g2.cells row col = g1.cells row col := by
      intro row col
      rw [hg1, hg2]
      rw [stampBoxes_cells_char f.dims.1 f.dims.2 st.radius bs
        (stampBoxes f.dims.1 f.dims.2 st.radius bs (reallocGrid st.heatmap f.dims))
        row col hg1h hg1w]
      split
      · next hE =>
        rw [stampBoxes_cells_char f.dims.1 f.dims.2 st.radius bs
          (reallocGrid st.heatmap f.dims) row col
          (congrArg Prod.fst (reallocGrid_h_w st.heatmap f.dims))
          (congrArg Prod.snd (reallocGrid_h_w st.heatmap f.dims)), if_pos hE]
      · rfl
    refine ⟨hcells, ?_⟩
    rw [annotate_coverage_eq bs ((heatmapAnnotate (some bs) st f).1) f,
      annotate_coverage_eq bs st f, hre, annotate_radius_eq]
    congr 1
    congr 1
    norm_cast
    apply nonzeroCount_congr
    · rw [stampBoxes_h, hg1h]
    · rw [stampBoxes_w, hg1w]
    · intro row col
      have := hcells row col
      rw [hg1, hg2] at this
      exact this
  · rw [annotate_heatmap_eq]
    have hsb : stampBoxes f.dims.1 f.dims.2 st.radius [b] (reallocGrid st.heatmap f.dims) =
        reallocGrid st.heatmap f.dims := by
      show stampStep f.dims.1 f.dims.2 st.radius (reallocGrid st.heatmap f.dims) b = _
      rw [stampStep]
      exact if_neg hout
    rw [hsb]

end AirVision
namespace AirVision

/-- Witness for C6 on a 3×3 run: restamp at (1,1) with radius 1, and an
out-of-bounds detection at x = 5. -/
theorem C6_stamp_saturating_witness :
    ((stampDisk (stampDisk (zeroGrid 3 3) 1 1 1) 1 1 1).cells 1 1 =
      (stampDisk (zeroGrid 3 3) 1 1 1).cells 1 1) ∧
    ((stampDisk (zeroGrid 3 3) 1 1 1).cells 1 1 = 1 ∨
      (stampDisk (zeroGrid 3 3) 1 1 1).cells 1 1 = (zeroGrid 3 3).cells 1 1) ∧
    ((stampBoxes 3 3 1 [⟨1, 1, 1, 1⟩]
        (reallocGrid (some (stampBoxes 3 3 1 [⟨1, 1, 1, 1⟩] (zeroGrid 3 3)))
          (Image.frame 3 3 0).dims)).cells 1 1 =
      (stampBoxes 3 3 1 [⟨1, 1, 1, 1⟩] (zeroGrid 3 3)).cells 1 1) ∧
    ((heatmapAnnotate (some [⟨1, 1, 1, 1⟩])
        (heatmapAnnotate (some [⟨1, 1, 1, 1⟩]) ⟨none, 2/5, 1, true, 0⟩
          (Image.frame 3 3 0)).1 (Image.frame 3 3 0)).1.coverage =
      (heatmapAnnotate (some [⟨1, 1, 1, 1⟩]) ⟨none, 2/5, 1, true, 0⟩
        (Image.frame 3 3 0)).1.coverage) ∧
    ((heatmapAnnotate (some [⟨5, 1, 1, 1⟩]) ⟨none, 2/5, 1, true, 0⟩
        (Image.frame 3 3 0)).1.heatmap =
      some (reallocGrid none (Image.frame 3 3 0).dims)) := by
  have hout : ¬ (0 ≤ pyInt ((5 : ℚ)) ∧ pyInt ((5 : ℚ)) < ((Image.frame 3 3 0).dims.2 : Int) ∧
      0 ≤ pyInt ((1 : ℚ)) ∧ pyInt ((1 : ℚ)) < ((Image.frame 3 3 0).dims.1 : Int)) := by
    have h5 : pyInt ((5 : ℚ)) = 5 := by
      rw [pyInt, if_neg (by norm_num)]
      norm_num
    rw [h5]
    simp only [Image.dims]
    norm_num
  have hthm := C6_stamp_saturating (zeroGrid 3 3) 1 1 1 ⟨none, 2/5, 1, true, 0⟩
    (Image.frame 3 3 0) [⟨1, 1, 1, 1⟩] ⟨5, 1, 1, 1⟩ hout
  exact ⟨hthm.1 1 1, hthm.2.1 1 1,
    (hthm.2.2.1
      (stampBoxes 3 3 1 [⟨1, 1, 1, 1⟩] (zeroGrid 3 3))
      (stampBoxes 3 3 1 [⟨1, 1, 1, 1⟩]
        (reallocGrid (some (stampBoxes 3 3 1 [⟨1, 1, 1, 1⟩] (zeroGrid 3 3)))
          (Image.frame 3 3 0).dims))
      rfl rfl).1 1 1,
    (hthm.2.2.1
      (stampBoxes 3 3 1 [⟨1, 1, 1, 1⟩] (zeroGrid 3 3))
      (stampBoxes 3 3 1 [⟨1, 1, 1, 1⟩]
        (reallocGrid (some (stampBoxes 3 3 1 [⟨1, 1, 1, 1⟩] (zeroGrid 3 3)))
          (Image.frame 3 3 0).dims))
      rfl rfl).2,
    hthm.2.2.2⟩

end AirVision
namespace AirVision

/-- Counterexample to claim C1 as stated: the HeatmapGenerator's
`annotate_frame` has no `try`/`except`, so on a detector failure it raises
instead of returning `(frame, 0)` — and the grid reallocation that already
ran has replaced the accumulated 2×2 grid by a fresh 3×3 zero grid, so the
internal state is not left untouched either. -/
theorem C1_counterexample :
    ((heatmapAnnotate none ⟨some ⟨2, 2, fun _ _ => 1⟩, 2/5, 15, true, 100⟩
        (Image.frame 3 3 0)).2 = Except.error ()) ∧
    ((heatmapAnnotate none ⟨some ⟨2, 2, fun _ _ => 1⟩, 2/5, 15, true, 100⟩
        (Image.frame 3 3 0)).1.heatmap.map (fun g => (g.h, g.w)) = some (3, 3)) ∧
    ((⟨some ⟨2, 2, fun _ _ => 1⟩, 2/5, 15, true, 100⟩ : HeatmapState).heatmap.map
        (fun g => (g.h, g.w)) = some (2, 2)) ∧
    ((3, 3) : Nat × Nat) ≠ (2, 2) :=
  ⟨rfl, rfl, rfl, by decide⟩

/-- Claim C1 amended: the Tracker's `annotate_frame` absorbs a
detector/tracker failure (malformed or missing IDs), returning the
unmodified frame with metric 0 and leaving counter and history untouched;
the HeatmapGenerator's `annotate_frame` instead propagates the failure,
with the (possibly reallocated) grid already stored and the coverage
statistic unchanged. -/
theorem C1_failure_behaviour (lh : Option Nat) (hl : Bool) (res : TrackResults)
    (st : TrackerState) (frame : Image) (hres : res.ids = none)
    (dets : Option (List Box)) (hst : HeatmapState) (hframe : Image)
    (hdets : dets = none) :
    trackerAnnotate lh hl res st frame = (st, frame, 0) ∧
    (heatmapAnnotate dets hst hframe).2 = Except.error () ∧
    (heatmapAnnotate dets hst hframe).1.heatmap =
      some (reallocGrid hst.heatmap hframe.dims) ∧
    (heatmapAnnotate dets hst hframe).1.coverage = hst.coverage := by
  subst hdets
  obtain ⟨bx, ids⟩ := res
  simp only at hres
  subst hres
  exact ⟨rfl, rfl, rfl, rfl⟩

/-- Witness for C1 at a concrete failed frame. -/
theorem C1_failure_behaviour_witness :
    trackerAnnotate none false ⟨[], none⟩ ⟨∅, []⟩ (Image.frame 2 2 0) =
      (⟨∅, []⟩, Image.frame 2 2 0, 0) ∧
    (heatmapAnnotate none ⟨none, 2/5, 15, true, 0⟩ (Image.frame 2 2 0)).2 =
      Except.error () ∧
    (heatmapAnnotate none ⟨none, 2/5, 15, true, 0⟩ (Image.frame 2 2 0)).1.heatmap =
      some (reallocGrid none (Image.frame 2 2 0).dims) ∧
    (heatmapAnnotate none ⟨none, 2/5, 15, true, 0⟩ (Image.frame 2 2 0)).1.coverage =
      (⟨none, 2/5, 15, true, 0⟩ : HeatmapState).coverage :=
  C1_failure_behaviour none false ⟨[], none⟩ ⟨∅, []⟩ (Image.frame 2 2 0) rfl
    none ⟨none, 2/5, 15, true, 0⟩ (Image.frame 2 2 0) rfl

/-- Counterexample to claim C2 as stated: the triple `id_to_color` returns
is in B, G, R order (OpenCV's channel order), not R, G, B — at ID 1 the
code yields `(24, 199, 242)` while the RGB-ordered triple of the same hue
is `(242, 199, 24)`. -/
theorem C2_counterexample :
    id_to_color 1 = (24, 199, 242) ∧ id_to_color_rgb_claim 1 = (242, 199, 24) ∧
    id_to_color 1 ≠ id_to_color_rgb_claim 1 :=
  ⟨id_to_color_one, id_to_color_rgb_claim_one, by
    rw [id_to_color_one, id_to_color_rgb_claim_one]
    decide⟩

/-- Claim C2 amended: the color is a pure function of the integer ID —
independent of the incoming global RNG state — produced by seeding
Python's Mersenne Twister with the ID and drawing one hue in `[0, 1)`,
converting through `hsv_to_rgb` at fixed saturation 0.9 and value 0.95,
and returning the scaled triple in B, G, R (not R, G, B) order. -/
theorem C2_color_pure_bgr (idx : Nat) (rng : MTState) :
    (id_to_color_impl idx rng).1 = id_to_color idx ∧
    (0 ≤ hueOf idx ∧ hueOf idx < 1) ∧
    id_to_color idx =
      (pyIntN ((hsv_to_rgb (hueOf idx) (9/10) (19/20)).2.2 * 255),
       pyIntN ((hsv_to_rgb (hueOf idx) (9/10) (19/20)).2.1 * 255),
       pyIntN ((hsv_to_rgb (hueOf idx) (9/10) (19/20)).1 * 255)) :=
  ⟨rfl, hueOf_mem_Ico idx, rfl⟩

end AirVision
namespace AirVision

theorem smooth_path_length (pts : List (ℚ × ℚ)) :
    (smooth_path pts).length = pts.length := by
  rw [smooth_path]
  split
  · rfl
  · rw [List.length_map, List.length_range]

theorem pyIntN_natCast (n : Nat) : pyIntN ((n : ℚ)) = n := by
  rw [pyIntN, pyInt, if_neg (not_lt.mpr (by positivity))]
  rw [Int.floor_natCast]
  exact Int.toNat_natCast n

theorem scaleColor_one (c : Nat × Nat × Nat) : scaleColor c 1 = c := by
  rw [scaleColor, mul_one, mul_one, mul_one, pyIntN_natCast, pyIntN_natCast, pyIntN_natCast]

/-- Claim C8 amended: for a rendered track whose (possibly smoothed) path
has `m` points, `m - 1` segments are drawn (the code's `n = m - 1`);
segment `i` joins consecutive points with the track color scaled by
`(i+1)/n` (so the newest segment, `i = n-1`, gets the full-brightness
color, `scaleColor c 1 = c`); and the arrowhead — full-brightness color,
thickness one more — is drawn from the second-last to the last point if
and only if the squared distance between them exceeds `25` (i.e. the
Euclidean distance exceeds 5). -/
theorem C8_trail_fade (pts : List (ℚ × ℚ)) (smooth : Bool) (thick : Nat) (tid : Int)
    (h2 : 2 ≤ pts.length) :
    ((renderTrack smooth thick tid pts).1.length =
      (if smooth then smooth_path pts else pts).length - 1) ∧
    (∀ i a b, (if smooth then smooth_path pts else pts)[i]? = some a →
      (if smooth then smooth_path pts else pts)[i + 1]? = some b →
      (renderTrack smooth thick tid pts).1[i]? = some
        { p1 := (pyInt a.1, pyInt a.2), p2 := (pyInt b.1, pyInt b.2)
          color := scaleColor (id_to_color tid.natAbs)
            ((i + 1 : ℚ) /
              ((((if smooth then smooth_path pts else pts).length - 1 : Nat)) : ℚ))
          thickness := thick }) ∧
    scaleColor (id_to_color tid.natAbs) 1 = id_to_color tid.natAbs ∧
    (∀ p2 p1 rest, (if smooth then smooth_path pts else pts).reverse = p2 :: p1 :: rest →
      (renderTrack smooth thick tid pts).2 =
        (if (p2.1 - p1.1) ^ 2 + (p2.2 - p1.2) ^ 2 > 25 then
          some { p1 := (pyInt p1.1, pyInt p1.2), p2 := (pyInt p2.1, pyInt p2.2)
                 color := id_to_color tid.natAbs, thickness := thick + 1 }
        else none)) := by
  have hplen : (if smooth then smooth_path pts else pts).length = pts.length := by
    split
    · exact smooth_path_length pts
    · rfl
  have h2p : 2 ≤ (if smooth then smooth_path pts else pts).length := hplen ▸ h2
  have hrt : renderTrack smooth thick tid pts =
      (pathSegs (if smooth then smooth_path pts else pts) (id_to_color tid.natAbs) thick,
       pathArrow (if smooth then smooth_path pts else pts) (id_to_color tid.natAbs) thick) := by
    rw [renderTrack, if_neg (by omega)]
  refine ⟨?_, ?_, scaleColor_one _, ?_⟩
  · rw [hrt]
    show (pathSegs _ _ thick).length = _
    rw [pathSegs, List.length_map, List.enum_length, List.length_zip, List.length_tail]
    omega
  · intro i a b ha hb
    rw [hrt]
    show (pathSegs _ _ thick)[i]? = _
    rw [pathSegs, List.getElem?_map, List.getElem?_enum]
    have hzip : ((if smooth then smooth_path pts else pts).zip
        (if smooth then smooth_path pts else pts).tail)[i]? = some (a, b) := by
      rw [List.getElem?_zip_eq_some]
      refine ⟨ha, ?_⟩
      rcases hp : (if smooth then smooth_path pts else pts) with _ | ⟨p0, rest⟩
      · rw [hp] at h2p
        simp at h2p
      · rw [hp] at hb
        simpa using hb
    rw [hzip]
    rfl
  · intro p2 p1 rest hrev
    rw [hrt]
    show pathArrow _ _ thick = _
    rw [pathArrow, hrev]

end AirVision
namespace AirVision

/-- Witness for C8 on the unsmoothed 2-point path `[(0,0), (10,0)]`. -/
theorem C8_trail_fade_witness :
    ((renderTrack false 2 1 [((0:ℚ),(0:ℚ)), ((10:ℚ),(0:ℚ))]).1.length =
      (if false then smooth_path [((0:ℚ),(0:ℚ)), ((10:ℚ),(0:ℚ))]
        else [((0:ℚ),(0:ℚ)), ((10:ℚ),(0:ℚ))]).length - 1) ∧
    ((renderTrack false 2 1 [((0:ℚ),(0:ℚ)), ((10:ℚ),(0:ℚ))]).1[0]? = some
      { p1 := (pyInt (0:ℚ), pyInt (0:ℚ)), p2 := (pyInt (10:ℚ), pyInt (0:ℚ))
        color := scaleColor (id_to_color (Int.natAbs 1))
          ((0 + 1 : ℚ) /
            ((((if false then smooth_path [((0:ℚ),(0:ℚ)), ((10:ℚ),(0:ℚ))]
              else [((0:ℚ),(0:ℚ)), ((10:ℚ),(0:ℚ))]).length - 1 : Nat)) : ℚ))
        thickness := 2 }) ∧
    scaleColor (id_to_color (Int.natAbs 1)) 1 = id_to_color (Int.natAbs 1) ∧
    ((renderTrack false 2 1 [((0:ℚ),(0:ℚ)), ((10:ℚ),(0:ℚ))]).2 =
      (if (((10:ℚ),(0:ℚ)).1 - ((0:ℚ),(0:ℚ)).1) ^ 2 +
          (((10:ℚ),(0:ℚ)).2 - ((0:ℚ),(0:ℚ)).2) ^ 2 > 25 then
        some { p1 := (pyInt (((0:ℚ),(0:ℚ)).1), pyInt (((0:ℚ),(0:ℚ)).2))
               p2 := (pyInt (((10:ℚ),(0:ℚ)).1), pyInt (((10:ℚ),(0:ℚ)).2))
               color := id_to_color (Int.natAbs 1), thickness := 2 + 1 }
      else none)) :=
  ⟨(C8_trail_fade [((0:ℚ),(0:ℚ)), ((10:ℚ),(0:ℚ))] false 2 1 (by norm_num)).1,
   (C8_trail_fade [((0:ℚ),(0:ℚ)), ((10:ℚ),(0:ℚ))] false 2 1 (by norm_num)).2.1
     0 ((0:ℚ),(0:ℚ)) ((10:ℚ),(0:ℚ)) rfl rfl,
   (C8_trail_fade [((0:ℚ),(0:ℚ)), ((10:ℚ),(0:ℚ))] false 2 1 (by norm_num)).2.2.1,
   (C8_trail_fade [((0:ℚ),(0:ℚ)), ((10:ℚ),(0:ℚ))] false 2 1 (by norm_num)).2.2.2
     ((10:ℚ),(0:ℚ)) ((0:ℚ),(0:ℚ)) [] rfl⟩

/-- Counterexample to claim C8 as stated: with `n` read as the number of
path points (the reading forced by "n-1 line segments are drawn between
consecutive points"), the color formula `color * ((i+1)/n)` is wrong — on
the 3-point track of ID 1 the code draws the last segment (index 1) with
the full-brightness color `(24, 199, 242)`, not with
`scaleColor color ((1+1)/3) = (16, 132, 161)` as the claim dictates. -/
theorem C8_counterexample :
    ((renderTrack false 2 1 [((0:ℚ),(0:ℚ)), ((10:ℚ),(0:ℚ)), ((20:ℚ),(0:ℚ))]).1.length =
      3 - 1) ∧
    (((renderTrack false 2 1
        [((0:ℚ),(0:ℚ)), ((10:ℚ),(0:ℚ)), ((20:ℚ),(0:ℚ))]).1.map Seg.color)[1]? =
      some (24, 199, 242)) ∧
    scaleColor (24, 199, 242) ((1 + 1 : ℚ) / ((3 : Nat) : ℚ)) = (16, 132, 161) ∧
    ((24, 199, 242) : Nat × Nat × Nat) ≠ (16, 132, 161) := by
  have hr : renderTrack false 2 1 [((0:ℚ),(0:ℚ)), ((10:ℚ),(0:ℚ)), ((20:ℚ),(0:ℚ))] =
      (pathSegs [((0:ℚ),(0:ℚ)), ((10:ℚ),(0:ℚ)), ((20:ℚ),(0:ℚ))] (id_to_color 1) 2,
       pathArrow [((0:ℚ),(0:ℚ)), ((10:ℚ),(0:ℚ)), ((20:ℚ),(0:ℚ))] (id_to_color 1) 2) := by
    rw [renderTrack, if_neg (by norm_num)]
    rfl
  refine ⟨?_, ?_, ?_, by decide⟩
  · rw [hr]
    show (pathSegs _ _ 2).length = _
    rw [pathSegs, List.length_map, List.enum_length, List.length_zip, List.length_tail]
    decide
  · rw [hr]
    show ((pathSegs _ _ 2).map Seg.color)[1]? = _
    rw [pathSegs, List.getElem?_map, List.getElem?_map, List.getElem?_enum]
    rw [show ([((0:ℚ),(0:ℚ)), ((10:ℚ),(0:ℚ)), ((20:ℚ),(0:ℚ))].zip
        [((0:ℚ),(0:ℚ)), ((10:ℚ),(0:ℚ)), ((20:ℚ),(0:ℚ))].tail)[1]? =
      some (((10:ℚ),(0:ℚ)), ((20:ℚ),(0:ℚ))) from rfl]
    show some (scaleColor (id_to_color 1) ((1 + 1 : ℚ) / ((2 : Nat) : ℚ))) = _
    rw [show ((1 + 1 : ℚ) / ((2 : Nat) : ℚ)) = 1 by norm_num,
      scaleColor_one, id_to_color_one]
  · rw [scaleColor]
    have e1 : pyIntN (((24 : Nat) : ℚ) * ((1 + 1 : ℚ) / ((3 : Nat) : ℚ))) = 16 := by
      rw [pyIntN, pyInt, if_neg (by norm_num)]
      rw [show ⌊((24 : Nat) : ℚ) * ((1 + 1 : ℚ) / ((3 : Nat) : ℚ))⌋ = 16 by
        rw [Int.floor_eq_iff]; norm_num]
      rfl
    have e2 : pyIntN (((199 : Nat) : ℚ) * ((1 + 1 : ℚ) / ((3 : Nat) : ℚ))) = 132 := by
      rw [pyIntN, pyInt, if_neg (by norm_num)]
      rw [show ⌊((199 : Nat) : ℚ) * ((1 + 1 : ℚ) / ((3 : Nat) : ℚ))⌋ = 132 by
        rw [Int.floor_eq_iff]; norm_num]
      rfl
    have e3 : pyIntN (((242 : Nat) : ℚ) * ((1 + 1 : ℚ) / ((3 : Nat) : ℚ))) = 161 := by
      rw [pyIntN, pyInt, if_neg (by norm_num)]
      rw [show ⌊((242 : Nat) : ℚ) * ((1 + 1 : ℚ) / ((3 : Nat) : ℚ))⌋ = 161 by
        rw [Int.floor_eq_iff]; norm_num]
      rfl
    show (pyIntN (((24 : Nat) : ℚ) * ((1 + 1 : ℚ) / ((3 : Nat) : ℚ))),
          pyIntN (((199 : Nat) : ℚ) * ((1 + 1 : ℚ) / ((3 : Nat) : ℚ))),
          pyIntN (((242 : Nat) : ℚ) * ((1 + 1 : ℚ) / ((3 : Nat) : ℚ)))) = (16, 132, 161)
    rw [e1, e2, e3]

end AirVision
